import Mathlib

/-!
Shallow embedding of the request-dispatch and gateway-execution core of the
`tilde` repository's two server variants, `spartan_cgi_server.py` and
`cgi.py`.

Each server variant is embedded as a pure function from a request line, a
configuration and a "world" (filesystem contents, interpreter state, and the
observable behavior of any invoked gateway script) to the list of observable
events it performs: status-line writes, body writes, and filesystem or
process effects.  Python string primitives used by the source (`str.split`,
`str.strip`, `os.path.normpath`, `urllib.parse.unquote`, ...) are embedded
as structurally recursive Lean functions over the character lists that back
Lean strings, so all of them evaluate by kernel reduction on concrete
inputs.
-/

namespace Tilde

/-- The characters of a string.  Lean 4.14 strings are lists of unicode
scalar values; the data handled by the servers is ASCII / latin-1, for which
one `Char` corresponds to one Python `str` character (or one byte of a
Python `bytes` value: CGI output bytes are modelled as latin-1 chars). -/
def chars (s : String) : List Char := s.data

/-- Rebuild a string from its characters. -/
def ofChars (l : List Char) : String := ⟨l⟩

/-- Membership of a character in a set of characters. -/
def memChar (set : List Char) (c : Char) : Bool := set.contains c

/-- Python `str.strip(set)` / `bytes.strip(set)`: remove every leading and
trailing character that belongs to `set`. -/
def pyStripChars (set : List Char) (s : String) : String :=
  ofChars ((((chars s).dropWhile (memChar set)).reverse.dropWhile (memChar set)).reverse)

/-- The ASCII whitespace characters stripped by no-argument Python
`str.strip()` / `bytes.strip()`. -/
def pyWS : List Char := [' ', '\t', '\n', '\r', Char.ofNat 11, Char.ofNat 12]

/-- Python `str.strip()` with no argument. -/
def pyStrip (s : String) : String := pyStripChars pyWS s

/-- Helper for `splitOnChar`: accumulates the current field in reverse. -/
def splitOnCharAux (c : Char) : List Char → List Char → List (List Char)
  | [], acc => [acc.reverse]
  | x :: xs, acc =>
    if x = c then acc.reverse :: splitOnCharAux c xs []
    else splitOnCharAux c xs (x :: acc)

/-- Split a character list at every occurrence of `c`, keeping empty
fields, exactly like Python `str.split(sep)` with an explicit one-character
separator. -/
def splitOnChar (c : Char) (l : List Char) : List (List Char) := splitOnCharAux c l []

/-- Python `s.split(c)` for a one-character separator `c`. -/
def pySplitChar (c : Char) (s : String) : List String := (splitOnChar c (chars s)).map ofChars

/-- Join strings with a separator (Python `sep.join`). -/
def joinWith (sep : String) : List String → String
  | [] => ""
  | [x] => x
  | x :: y :: xs => x ++ sep ++ joinWith sep (y :: xs)

/-- Python `s.split(" ", 2)`: at most two splits, the remainder of the
string (separators included) becomes the third field. -/
def pySplitSpace2 (s : String) : List String :=
  match pySplitChar ' ' s with
  | a :: b :: c :: rest => [a, b, joinWith " " (c :: rest)]
  | l => l

/-- Python `s.split(c, 1)` for a one-character separator: split at the
first occurrence only. -/
def breakAtChar (c : Char) : List Char → List Char × Option (List Char)
  | [] => ([], none)
  | x :: xs =>
    if x = c then ([], some xs)
    else
      let r := breakAtChar c xs
      (x :: r.1, r.2)

/-- Python `s.split(c, 1)`: one or two fields. -/
def pySplitFirst (c : Char) (s : String) : List String :=
  match breakAtChar c (chars s) with
  | (a, none) => [ofChars a]
  | (a, some b) => [ofChars a, ofChars b]

/-- `leadsWith pat l` holds when `pat` is an initial segment of `l`
(Python `str.startswith`). -/
def leadsWith : List Char → List Char → Bool
  | [], _ => true
  | _ :: _, [] => false
  | p :: ps, x :: xs => p == x && leadsWith ps xs

/-- Python `s.startswith(pre)`. -/
def pyStartsWith (pre s : String) : Bool := leadsWith (chars pre) (chars s)

/-- Python `s.endswith(suf)`. -/
def pyEndsWith (suf s : String) : Bool := leadsWith (chars suf).reverse (chars s).reverse

/-- Python `s.lower()` restricted to ASCII letters (all the header names
and constants the servers compare case-insensitively are ASCII). -/
def pyLower (s : String) : String := ofChars ((chars s).map Char.toLower)

/-- Lexicographic order on character lists by unicode scalar value, the
order Python uses to compare `str` values. -/
def lexLe : List Char → List Char → Bool
  | [], _ => true
  | _ :: _, [] => false
  | a :: as, b :: bs => if a = b then lexLe as bs else decide (a < b)

/-- Value of one hexadecimal digit. -/
def hexVal (c : Char) : Option Nat :=
  if '0' ≤ c ∧ c ≤ '9' then some (c.toNat - '0'.toNat)
  else if 'a' ≤ c ∧ c ≤ 'f' then some (c.toNat - 'a'.toNat + 10)
  else if 'A' ≤ c ∧ c ≤ 'F' then some (c.toNat - 'A'.toNat + 10)
  else none

/-- Modelled from the spec ("percent-decode the path component", section
4.2): `urllib.parse.unquote` — the Python standard-library function the
sources call — replacing each valid `%XX` escape by the character with that
code and leaving invalid escapes untouched.  Multi-byte UTF-8 escape
sequences are decoded bytewise; the requests the claims quantify over are
ASCII, where this coincides with `unquote`. -/
def unquoteChars : List Char → List Char
  | [] => []
  | '%' :: a :: b :: rest =>
    match hexVal a, hexVal b with
    | some hi, some lo => Char.ofNat (16 * hi + lo) :: unquoteChars rest
    | _, _ => '%' :: unquoteChars (a :: b :: rest)
  | c :: rest => c :: unquoteChars rest

/-- `urllib.parse.unquote` on strings (see `unquoteChars`). -/
def unquote (s : String) : String := ofChars (unquoteChars (chars s))

/-- The component loop of CPython's `posixpath.normpath`: drop empty and
`.` components; a `..` component pops the previous component unless there is
nothing to pop (at the start of a relative path) or the previous component
is itself `..`. -/
def normComps (slashes : Nat) (comps : List String) : List String :=
  comps.foldl
    (fun acc comp =>
      if comp = "" ∨ comp = "." then acc
      else if comp ≠ ".." ∨ (slashes = 0 ∧ acc = []) ∨ (acc ≠ [] ∧ acc.getLast? = some "..") then
        acc ++ [comp]
      else acc.dropLast)
    []

/-- CPython `posixpath.normpath`, the purely lexical path normalization the
sources use for the traversal check. -/
def normpath (path : String) : String :=
  if path = "" then "."
  else
    let slashes : Nat :=
      if pyStartsWith "/" path then
        if pyStartsWith "//" path && !pyStartsWith "///" path then 2 else 1
      else 0
    let p := joinWith "/" (normComps slashes (pySplitChar '/' path))
    let p := ofChars (List.replicate slashes '/') ++ p
    if p = "" then "." else p

/-- Accumulate the value of a digit string; `none` on any non-digit. -/
def digitsValAux : List Char → Nat → Option Nat
  | [], acc => some acc
  | c :: cs, acc => if c.isDigit then digitsValAux cs (10 * acc + (c.toNat - 48)) else none

/-- Python `int(s)`: optional surrounding whitespace, optional sign, then a
nonempty digit string (digit-group underscores are not modelled; no input
the servers parse contains them). -/
def pyInt (s : String) : Option Int :=
  match chars (pyStrip s) with
  | [] => none
  | '+' :: rest => if rest = [] then none else (digitsValAux rest 0).map Int.ofNat
  | '-' :: rest => if rest = [] then none else (digitsValAux rest 0).map fun n => -(n : Int)
  | l => (digitsValAux l 0).map Int.ofNat

/-- Python `bytes.isdigit`: nonempty and all ASCII digits. -/
def bytesIsdigit (s : String) : Bool := ¬ (chars s).isEmpty && (chars s).all Char.isDigit

/-- Python `bytes.find(pat)` scanning helper: index of the first position
where `pat` occurs, counting from `i`. -/
def findSubAux (pat : List Char) : List Char → Nat → Option Nat
  | [], i => if pat.isEmpty then some i else none
  | x :: xs, i => if leadsWith pat (x :: xs) then some i else findSubAux pat xs (i + 1)

/-- Python `bytes.find(pat)` (as `Option` instead of `-1`). -/
def findSub (pat : String) (l : List Char) : Option Nat := findSubAux (chars pat) l 0

/-- Python `str.splitlines` restricted to the `\r\n`, `\r` and `\n` line
boundaries (the only ones CGI header blocks contain): no trailing empty
line, interior empty lines kept. -/
def splitlinesAux : List Char → List Char → List String
  | [], acc => if acc.isEmpty then [] else [ofChars acc.reverse]
  | '\r' :: '\n' :: rest, acc => ofChars acc.reverse :: splitlinesAux rest []
  | '\r' :: rest, acc => ofChars acc.reverse :: splitlinesAux rest []
  | '\n' :: rest, acc => ofChars acc.reverse :: splitlinesAux rest []
  | c :: rest, acc => splitlinesAux rest (c :: acc)

/-- Python `str.splitlines` (see `splitlinesAux`). -/
def pySplitlines (l : List Char) : List String := splitlinesAux l []

/-- CPython `pathlib.PurePath.suffix`: the final `.`-led extension of a
name, empty when the only dot is the leading or trailing character. -/
def pySuffix (name : String) : String :=
  let l := chars name
  match (l.reverse.takeWhile (· ≠ '.')).length with
  | 0 => ""                                   -- name ends with a dot
  | k => if k + 1 < l.length then ofChars (l.drop (l.length - (k + 1))) else ""

/-- Stable insertion into a `le`-sorted list: the new element goes before
the first existing element it is `le`-related to, so elements with equal
keys keep their original relative order. -/
def insertStable (le : α → α → Bool) (x : α) : List α → List α
  | [] => [x]
  | y :: ys => if le x y then x :: y :: ys else y :: insertStable le x ys

/-- Stable ascending sort, the specification of Python's `sorted`. -/
def stableSort (le : α → α → Bool) : List α → List α
  | [] => []
  | x :: xs => insertStable le x (stableSort le xs)

/-! ## Data model shared by both server variants -/

/-- A filesystem entry: a regular file with its byte content (latin-1
chars) and its executable bit, or a directory. -/
inductive Entry
  | file (content : String) (exec : Bool)
  | dir
deriving DecidableEq, Repr

/-- One entry of a directory listing, as `pathlib.Path.iterdir` exposes it:
a name and whether the child is itself a directory. -/
structure DirEnt where
  name : String
  isDir : Bool
deriving DecidableEq, Repr

/-- The server-root-relative filesystem.  `lookup` resolves a root-relative
segment list (`[]` is the root itself); `children` is the `iterdir`
enumeration of a directory, in on-disk iteration order. -/
structure FS where
  lookup : List String → Option Entry
  children : List String → List DirEnt

/-- `Path.is_file()`. -/
def isFile (fs : FS) (p : List String) : Bool :=
  match fs.lookup p with
  | some (.file _ _) => true
  | _ => false

/-- `Path.is_dir()`. -/
def isDir (fs : FS) (p : List String) : Bool :=
  match fs.lookup p with
  | some .dir => true
  | _ => false

/-- `os.access(p, os.X_OK)`: executable bit of a file, search permission of
a directory, `False` for a missing path. -/
def osAccessX (fs : FS) (p : List String) : Bool :=
  match fs.lookup p with
  | some (.file _ x) => x
  | some .dir => true
  | none => false

/-- An observable event of one request's handling: a status-line write
(`write_status`, or `cgi.py`'s identically formatted raw status write), a
body write, or a filesystem / process effect. -/
inductive Ev
  | status (code : Int) (meta : String)
  | body (s : String)
  | fsStat (p : List String)
  | fsList (p : List String)
  | fsOpen (p : List String)
  | fsChmod (p : List String) (mode : Nat)
  | spawn (p : List String)
deriving DecidableEq, Repr

/-- Server configuration fixed at startup: the resolved root directory's
path components, the CGI-enable flag, the peer and bound addresses, and the
(out-of-scope, extension-driven) `mimetypes.guess_type` table. -/
structure Config where
  rootParts : List String
  enableCgi : Bool
  clientAddr : String
  serverName : String
  serverPort : Nat
  guessType : String → Option String

/-- `str(root / safe_path)`: the absolute path string of a root-relative
target. -/
def pathStr (cfg : Config) (segs : List String) : String :=
  "/" ++ joinWith "/" (cfg.rootParts ++ segs)

/-- `(root / safe_path).name`: the final path component. -/
def nameOf (cfg : Config) (segs : List String) : String :=
  ((cfg.rootParts ++ segs).getLast?).getD ""

/-- Root-relative segments of a normalized safe path.  `os.path.normpath`
output never contains empty or `.` components, except for the whole-path
`"."` which `pathlib` drops when joined (`root / "." = root`). -/
def segsOf (safe : String) : List String :=
  if safe = "." then [] else pySplitChar '/' safe

/-- An association list environment (`os.environ`, CGI environments):
setting an existing key replaces it in place, a new key is appended —
Python `dict` update semantics with insertion order. -/
def envSet : List (String × String) → String → String → List (String × String)
  | [], k, v => [(k, v)]
  | (k', v') :: rest, k, v =>
    if k' = k then (k, v) :: rest else (k', v') :: envSet rest k v

/-- Environment lookup. -/
def envGet : List (String × String) → String → Option String
  | [], _ => none
  | (k', v') :: rest, k => if k' = k then some v' else envGet rest k

/-- Python `dict.update` / `os.environ.update`. -/
def envUpdate (e : List (String × String)) (u : List (String × String)) :
    List (String × String) :=
  u.foldl (fun acc kv => envSet acc kv.1 kv.2) e

/-- An output/input channel of the hosting interpreter: one of the server
process's own three standard streams, or an in-memory capture buffer
installed by `run_cgi_python`. -/
inductive Chan
  | serverOut
  | serverErr
  | serverIn
  | captured (id : Nat)
deriving DecidableEq, Repr

/-- The mutable process-wide interpreter state `run_cgi_python` touches:
`sys.stdout`, `sys.stderr`, `sys.stdin` and `os.environ`. -/
structure SysState where
  stdout : Chan
  stderr : Chan
  stdin : Chan
  environ : List (String × String)

/-- The observable behavior of `exec`-ing an arbitrary Python script
in-process: the bytes it writes to the (captured) standard output and
error, the `os.environ` mutations it performs, and whether it ends by
raising; `excMsg` is the `str` of the raised exception.  The script's
source text is out of the embedding's scope — `_handle` only reaches
`run_cgi` for an existing file, and what the compiled code does when run is
exactly this record. -/
structure ScriptBehavior where
  raises : Bool
  excMsg : String
  out : String
  err : String
  envMut : List (String × String)

/-- The observable behavior of a spawned gateway process: it either never
terminates, or terminates with captured stdout/stderr bytes and an exit
code. -/
inductive ProcBehavior
  | hangs
  | terminates (out : String) (err : String) (exitCode : Int)

/-- Everything per-request handling can observe or mutate besides the
connection: filesystem contents, interpreter state, and the behavior of the
gateway target (used only if a gateway branch is taken). -/
structure World where
  fs : FS
  sys : SysState
  script : ScriptBehavior
  proc : ProcBehavior

/-! ## Shared gateway-output translation (spartan_cgi_server.py)

`run_cgi_python` (lines 153–189) and `run_cgi_exec` (lines 221–258)
duplicate the same header/body translation; it is embedded once. -/

/-- Split captured CGI output at the header separator: first occurrence of
`\r\n\r\n`, else first occurrence of `\n\n` (source lines 221–234).
Returns the decoded header block and the body bytes, or `none` when no
separator occurs (then the whole output is the body and there are no
headers). -/
def splitHeadersBody (out : List Char) : Option (List Char × List Char) :=
  match findSub "\r\n\r\n" out with
  | some i => some (out.take i, out.drop (i + 4))
  | none =>
    match findSub "\n\n" out with
    | some i => some (out.take i, out.drop (i + 2))
    | none => none

/-- One iteration of the header-scanning loop (source lines 239–243): a
`Content-Type:` line (matched case-insensitively by prefix) overwrites the
remembered content type with its `:`-value stripped; a `Status:` line
overwrites the remembered status line; anything else is ignored. -/
def scanStep (st : String × Option String) (header : String) : String × Option String :=
  if pyStartsWith "content-type:" (pyLower header) then
    ((pySplitFirst ':' header).getD 1 "" |> pyStrip, st.2)
  else if pyStartsWith "status:" (pyLower header) then
    (st.1, some ((pySplitFirst ':' header).getD 1 "" |> pyStrip))
  else st

/-- The header-scanning loop (source lines 236–243): content type defaults
to `text/plain`, status line to absent; the last matching header of each
kind wins. -/
def scanHeaders (headers : List String) : String × Option String :=
  headers.foldl scanStep ("text/plain", none)

/-- Status-code resolution (source lines 245–254): with a `Status` header,
the integer value of its first space-separated token floor-divided by 100
(`2` when that token is not an integer); without one, `2`.  The meta is
always the resolved content type. -/
def resolveStatus (statusLine : Option String) : Int :=
  match statusLine with
  | none => 2
  | some sl =>
    match pyInt ((pySplitFirst ' ' sl).getD 0 "") with
    | some n => Int.fdiv n 100
    | none => 2

/-- Full translation of captured CGI output bytes into the status code,
meta and body the server writes (source lines 221–254). -/
def translateOutput (out : String) : Int × String × String :=
  match splitHeadersBody (chars out) with
  | some (hdrs, body) =>
    (resolveStatus (scanHeaders (pySplitlines hdrs)).2, (scanHeaders (pySplitlines hdrs)).1,
     ofChars body)
  | none =>
    (2, "text/plain", out)

/-! ## Shared file / listing writers -/

/-- `write_file` (spartan_cgi_server.py lines 267–273, cgi.py lines
77–82): guess the MIME type (generic binary fallback), open the file, write
a success status with the type as meta, stream the bytes verbatim.  The
fallback branch models the raising `open` on a missing target; it is
unreachable from `_handle`, which only calls `write_file` under an
`is_file()` check. -/
def write_file (cfg : Config) (fs : FS) (segs : List String) : List Ev :=
  let mimetype := (cfg.guessType (pathStr cfg segs)).getD "application/octet-stream"
  match fs.lookup segs with
  | some (.file content _) => [.fsOpen segs, .status 2 mimetype, .body content]
  | _ => [.fsOpen segs]

/-- One listing line as written by `write_line`: `=>name/` for a
subdirectory, `=>name` for anything else, with the trailing `\n` that
`write_line` appends. -/
def lineOf (c : DirEnt) : Ev :=
  .body ("=>" ++ c.name ++ (if c.isDir then "/" else "") ++ "\n")

/-- The sort key order of spartan_cgi_server.py line 76:
`key=lambda c: (not c.is_dir(), c.name.lower())`, compared as Python
tuples (directories first, then case-insensitive name). -/
def childLe (a b : DirEnt) : Bool :=
  if a.isDir = b.isDir then lexLe (chars (pyLower a.name)) (chars (pyLower b.name))
  else a.isDir

/-! ## spartan_cgi_server.py -/

namespace Spartan

/-- The CGI environment of `run_cgi_python` (lines 107–116) and
`run_cgi_exec` (lines 201–210), which build it identically:
`os.environ.copy()` updated with the nine server variables.  No
`QUERY_STRING` is ever set — this variant never separates a query string
from the path. -/
def buildEnv (cfg : Config) (environ : List (String × String)) (segs : List String) :
    List (String × String) :=
  envUpdate environ
    [("GATEWAY_INTERFACE", "CGI/1.1"),
     ("SCRIPT_FILENAME", pathStr cfg segs),
     ("SCRIPT_NAME", nameOf cfg segs),
     ("REQUEST_METHOD", "GET"),
     ("SERVER_SOFTWARE", "spartan_server.py"),
     ("SERVER_PROTOCOL", "SPARTAN"),
     ("REMOTE_ADDR", cfg.clientAddr),
     ("SERVER_NAME", cfg.serverName),
     ("SERVER_PORT", toString cfg.serverPort)]

/-- `is_cgi` (lines 84–96): inside a `cgi-bin` path component, `.py` files
are eligible (in-process), other files by executable bit. -/
def is_cgi (cfg : Config) (fs : FS) (segs : List String) : Bool :=
  if !(cfg.rootParts ++ segs).contains "cgi-bin" then false
  else if pySuffix (nameOf cfg segs) = ".py" then true
  else osAccessX fs segs && isFile fs segs

/-- `str(subprocess.TimeoutExpired(cmd, 10))` for the `Popen` command list
of `run_cgi_exec`: the text of the server-error meta in the timeout case. -/
def timeoutMsg (cfg : Config) (segs : List String) : String :=
  "Command '['" ++ pathStr cfg segs ++ "']' timed out after 10 seconds"

/-- `run_cgi_python` (lines 104–196): build the environment, save the three
standard streams, install capture buffers, `os.environ.update(env)`, open
and `exec` the script, then — only on the success path — restore the
streams, translate the captured output and write status plus body.  A
raising script (or a failing `open`) is caught and answered with a `5`
status while the streams remain redirected; the `os.environ` update is
never undone on any path. -/
def run_cgi_python (cfg : Config) (fs : FS) (sys : SysState) (script : ScriptBehavior)
    (segs : List String) : List Ev × SysState :=
  let env := buildEnv cfg sys.environ segs
  let oldOut := sys.stdout
  let oldErr := sys.stderr
  let oldIn := sys.stdin
  let s1 : SysState :=
    { stdout := .captured 0, stderr := .captured 1, stdin := .captured 2,
      environ := envUpdate sys.environ env }
  match fs.lookup segs with
  | some (.file _ _) =>
    let s2 : SysState := { s1 with environ := envUpdate s1.environ script.envMut }
    if script.raises then
      ([.fsOpen segs, .status 5 ("CGI Error: " ++ script.excMsg)], s2)
    else
      let s3 : SysState := { s2 with stdout := oldOut, stderr := oldErr, stdin := oldIn }
      ([.fsOpen segs, .status (translateOutput script.out).1 (translateOutput script.out).2.1,
        .body (translateOutput script.out).2.2], s3)
  | _ =>
    -- `open(filepath, 'rb')` raises; caught by the inner handler, streams
    -- still redirected.  (Unreachable from `_handle`: guarded by `is_file()`.)
    ([.fsOpen segs, .status 5 "CGI Error: open failed"], s1)

/-- `run_cgi_exec` (lines 198–265): spawn the target, `communicate` with a
10-second timeout — a hung process raises `TimeoutExpired`, caught and
answered with a `5` status — otherwise translate the captured output.  The
exit code is never inspected. -/
def run_cgi_exec (cfg : Config) (proc : ProcBehavior) (segs : List String) : List Ev :=
  match proc with
  | .hangs => [.spawn segs, .status 5 ("CGI Error: " ++ timeoutMsg cfg segs)]
  | .terminates out _err _exitCode =>
    [.spawn segs, .status (translateOutput out).1 (translateOutput out).2.1,
     .body (translateOutput out).2.2]

/-- `run_cgi` (lines 98–102): dispatch on the `.py` suffix. -/
def run_cgi (cfg : Config) (w : World) (segs : List String) : List Ev × SysState :=
  if pySuffix (nameOf cfg segs) = ".py" then
    run_cgi_python cfg w.fs w.sys w.script segs
  else
    (run_cgi_exec cfg w.proc segs, w.sys)

/-- Result of `_handle`: normal return, or a raised `ValueError(msg)`, in
both cases with the events performed up to that point. -/
inductive HRes
  | ok (t : List Ev) (sys : SysState)
  | verr (t : List Ev) (msg : String)

/-- The request-line parse of `_handle` (lines 45–51): split on single
spaces into exactly three fields, reject an empty path; the content-length
field is never validated. -/
def parseRequest (request : String) : Except String (String × String × String) :=
  match pySplitChar ' ' request with
  | [hostname, path, contentLength] =>
    if path = "" then .error "Not Found" else .ok (hostname, path, contentLength)
  | _ => .error "Malformed request"

/-- The path-resolution and dispatch part of `_handle` (lines 53–82):
percent-decode, lexically normalize and containment-check the path, then
dispatch among CGI / file / directory / not-found.  `.fsStat` events record
the `is_file` / `is_dir` / `os.access` inspections of a target. -/
def dispatch (cfg : Config) (w : World) (path₀ : String) : HRes :=
  let path := unquote path₀
  let safe := normpath (pyStripChars ['/'] path)
  if pyStartsWith ".." safe || pyStartsWith "/" safe then
    .verr [] "Not Found"
  else
    let segs := segsOf safe
    if cfg.enableCgi && is_cgi cfg w.fs segs && isFile w.fs segs then
      .ok (.fsStat segs :: (run_cgi cfg w segs).1) (run_cgi cfg w segs).2
    else if isFile w.fs segs then
      .ok (.fsStat segs :: write_file cfg w.fs segs) w.sys
    else if isDir w.fs segs then
      if !pyEndsWith "/" path then
        .ok [.fsStat segs, .status 3 (path ++ "/")] w.sys
      else if isFile w.fs (segs ++ ["index.gmi"]) then
        .ok (.fsStat segs :: .fsStat (segs ++ ["index.gmi"]) ::
              write_file cfg w.fs (segs ++ ["index.gmi"])) w.sys
      else
        .ok ([.fsStat segs, .fsStat (segs ++ ["index.gmi"]), .fsList segs,
              .status 2 "text/gemini"] ++
             (stableSort childLe (w.fs.children segs)).map lineOf) w.sys
    else
      .verr [.fsStat segs] "Not Found"

/-- `_handle` (lines 40–82): parse the request line, then resolve and
dispatch the path field. -/
def _handle (cfg : Config) (w : World) (req : String) : HRes :=
  let request := pyStripChars ['\r', '\n'] req
  match parseRequest request with
  | .error msg => .verr [] msg
  | .ok (_hostname, path₀, _contentLength) => dispatch cfg w path₀

/-- `handle` (lines 31–38): a `ValueError` from `_handle` becomes one `4`
status line.  (The `except Exception` arm writes a `5` status and
re-raises; within the embedding — a total filesystem, ASCII request lines —
no other exception escapes `_handle`.) -/
def handle (cfg : Config) (w : World) (req : String) : List Ev × SysState :=
  match _handle cfg w req with
  | .ok t sys' => (t, sys')
  | .verr t msg => (t ++ [.status 4 msg], w.sys)

end Spartan

/-! ## cgi.py -/

namespace CgiPy

/-- Modelled from the spec ("The raw path field is further split into a
path component and an optional query string at the first `?`; the query
string is kept verbatim", section 4.1): the `urllib.parse.urlparse`
path/query extraction used at cgi.py lines 41–43, for the
`path[?query][#fragment]` shapes a request path field can take — the
fragment after the first `#` is dropped, the query is everything after the
first `?` of the remainder. -/
def urlPathQuery (s : String) : String × String :=
  let noFrag := (chars s).takeWhile (· ≠ '#')
  match breakAtChar '?' noFrag with
  | (p, none) => (ofChars p, "")
  | (p, some q) => (ofChars p, ofChars q)

/-- The CGI environment of `run_cgi` (lines 101–103): `os.environ.copy()`
with only `QUERY_STRING` (the undecoded query substring) and
`REQUEST_METHOD` set; none of the other conventional CGI variables are
added. -/
def buildEnv (environ : List (String × String)) (queryString : String) :
    List (String × String) :=
  envSet (envSet environ "QUERY_STRING" queryString) "REQUEST_METHOD" "GET"

/-- Result of a cgi.py handling step: a normal return with its events, or
a handler blocked forever (the un-timed-out `subprocess.run` on a process
that never terminates) with the events performed before blocking. -/
inductive R
  | done (t : List Ev)
  | blocked (t : List Ev)
deriving DecidableEq, Repr

/-- The events of an `R`, whether or not the handler returned. -/
def R.trace : R → List Ev
  | .done t => t
  | .blocked t => t

/-- Prefix events onto an `R`. -/
def R.pre (es : List Ev) : R → R
  | .done t => .done (es ++ t)
  | .blocked t => .blocked (es ++ t)

/-- `run_cgi` (lines 98–147): `os.chmod(filepath, 0o755)` first (a missing
target raises `FileNotFoundError`, answered with a `4` status), then
`subprocess.run` with `check=True` and **no timeout** — a process that
never terminates blocks the handler forever.  On completion: a non-zero
exit is answered `5` with the stripped stderr text; otherwise the stripped
stdout must begin with a pre-formatted `"<digits> <meta>"` status line,
which is relayed followed by the remaining bytes; malformed output is
answered `5`. -/
def run_cgi (fs : FS) (environ : List (String × String)) (proc : ProcBehavior)
    (segs : List String) (queryString : String) : R :=
  match fs.lookup segs with
  | some (.file _ _) =>
    let _cgiEnv := buildEnv environ queryString
    match proc with
    | .hangs => .blocked [.fsChmod segs 493, .spawn segs]
    | .terminates out err exitCode =>
      if exitCode ≠ 0 then
        let em := pyStrip err
        .done [.fsChmod segs 493, .spawn segs,
               .status 5 ("CGI script error: " ++ if em = "" then "Unknown error" else em)]
      else
        let o := chars (pyStrip out)
        match findSub "\n" o with
        | none =>
          .done [.fsChmod segs 493, .spawn segs,
                 .status 5 "CGI script produced no output or invalid format"]
        | some i =>
          let statusLine := pyStrip (ofChars (o.take i))
          let bodyContent := ofChars (o.drop (i + 1))
          match pySplitFirst ' ' statusLine with
          | [p0, p1] =>
            if bytesIsdigit p0 then
              .done [.fsChmod segs 493, .spawn segs,
                     .status ((pyInt p0).getD 0) p1, .body bodyContent]
            else
              .done [.fsChmod segs 493, .spawn segs,
                     .status 5 "CGI script produced invalid status line format"]
          | _ =>
            .done [.fsChmod segs 493, .spawn segs,
                   .status 5 "CGI script produced invalid status line format"]
  | _ => .done [.status 4 "CGI script not found or not executable"]

/-- The request-line parse of `_handle` (lines 29–36): split on single
spaces with `maxsplit=2` — a fourth space-separated token is glued into the
content-length field, so only one- and two-field lines are rejected — then
reject an empty path field.  Content-length is never validated. -/
def parseRequest (request : String) : Except String (String × String × String) :=
  match pySplitSpace2 request with
  | [hostname, rawPathQuery, contentLength] =>
    if rawPathQuery = "" then .error "Not Found: Empty path in request"
    else .ok (hostname, rawPathQuery, contentLength)
  | _ => .error "Bad Request: Invalid Spartan request format"

/-- The path-resolution and dispatch part of `_handle` (lines 41–75):
split path from query, percent-decode and lexically normalize the path
component, containment-check, then dispatch.  Unlike the spartan variant,
the traversal failure writes its `4` status inline; the trailing-slash
check and the redirect meta use the **undecoded** path component; the
directory listing begins with `=>..` and enumerates children in `iterdir`
order, unsorted. -/
def dispatch (cfg : Config) (w : World) (rawPathQuery : String) : R :=
  let path := (urlPathQuery rawPathQuery).1
  let queryString := (urlPathQuery rawPathQuery).2
  let safe := normpath (pyStripChars ['/'] (unquote path))
  if pyStartsWith ".." safe || pyStartsWith "/" safe then
    .done [.status 4 "Not Found: Invalid path traversal attempt"]
  else
    let segs := segsOf safe
    if cfg.enableCgi && isFile w.fs segs && osAccessX w.fs segs then
      R.pre [.fsStat segs] (run_cgi w.fs w.sys.environ w.proc segs queryString)
    else if isFile w.fs segs then
      .done (.fsStat segs :: write_file cfg w.fs segs)
    else if isDir w.fs segs then
      if !pyEndsWith "/" path then
        .done [.fsStat segs, .status 3 (path ++ "/")]
      else if isFile w.fs (segs ++ ["index.gmi"]) then
        .done (.fsStat segs :: .fsStat (segs ++ ["index.gmi"]) ::
               write_file cfg w.fs (segs ++ ["index.gmi"]))
      else
        .done ([.fsStat segs, .fsStat (segs ++ ["index.gmi"]), .fsList segs,
                .status 2 "text/gemini", .body "=>..\n"] ++
               (w.fs.children segs).map lineOf)
    else
      .done [.fsStat segs, .status 4 "Not Found: File or directory does not exist"]

/-- `_handle` (lines 22–75): parse the request line (failures write their
`4` status inline and return), then resolve and dispatch the path field. -/
def _handle (cfg : Config) (w : World) (req : String) : R :=
  let request := pyStripChars ['\r', '\n'] req
  match parseRequest request with
  | .error msg => .done [.status 4 msg]
  | .ok (_hostname, rawPathQuery, _contentLength) => dispatch cfg w rawPathQuery

/-- `handle` (lines 13–20): within the embedding `_handle` raises nothing
(its failure paths answer inline), so `handle` is `_handle`. -/
def handle (cfg : Config) (w : World) (req : String) : R :=
  _handle cfg w req

end CgiPy

/-! ## Claim-side predicates over event traces -/

/-- Is this event a status-line write (`"<code> <meta>\r\n"`)? -/
def isStatusEv : Ev → Bool
  | .status _ _ => true
  | _ => false

/-- Is this event a body-byte write? -/
def isBodyEv : Ev → Bool
  | .body _ => true
  | _ => false

/-- Is this event a filesystem access (stat, listing, open, chmod)? -/
def isFsEv : Ev → Bool
  | .fsStat _ => true
  | .fsList _ => true
  | .fsOpen _ => true
  | .fsChmod _ _ => true
  | _ => false

/-- Is this event a gateway process spawn? -/
def isSpawnEv : Ev → Bool
  | .spawn _ => true
  | _ => false

/-- Scan of the status-framing invariant, carrying the number of status
lines seen so far: a body write before the first status line is a
violation, so is a second status line, and the scan accepts exactly when
one status line was seen. -/
def chkFrame : List Ev → Nat → Bool
  | [], n => n == 1
  | .status _ _ :: t, n => n == 0 && chkFrame t 1
  | .body _ :: t, n => n == 1 && chkFrame t n
  | _ :: t, n => chkFrame t n

/-- A trace writes exactly one status line, and writes it before any body
bytes. -/
def wellFramed (t : List Ev) : Bool := chkFrame t 0

/-- A trace touches the filesystem or spawns a process. -/
def touchesFs (t : List Ev) : Bool := t.any fun e => isFsEv e || isSpawnEv e

/-- The keys of an association list. -/
def envKeys (e : List (String × String)) : List String := e.map Prod.fst

/-! ## Concrete fixtures for witnesses and counterexamples -/

/-- A `guess_type` table that knows no extension (every file falls back to
the generic binary type). -/
def guessNone : String → Option String := fun _ => none

/-- A small concrete configuration. -/
def cfg0 : Config :=
  { rootParts := ["srv"], enableCgi := false, clientAddr := "127.0.0.1",
    serverName := "127.0.0.1", serverPort := 1, guessType := guessNone }

/-- `cfg0` with gateway execution enabled. -/
def cfgCgi : Config := { cfg0 with enableCgi := true }

/-- Pristine interpreter state: the three server streams, empty process
environment. -/
def sys0 : SysState :=
  { stdout := .serverOut, stderr := .serverErr, stdin := .serverIn, environ := [] }

/-- A small concrete filesystem under the root: a file `f`, directories
`d` and `foo`, and a `cgi-bin` directory holding an executable `s` and a
script `s.py`. -/
def fs0 : FS where
  lookup := fun p =>
    match p with
    | [] => some .dir
    | ["f"] => some (.file "hi" false)
    | ["d"] => some .dir
    | ["d", "a"] => some (.file "A" false)
    | ["foo"] => some .dir
    | ["cgi-bin"] => some .dir
    | ["cgi-bin", "s"] => some (.file "bin" true)
    | ["cgi-bin", "s.py"] => some (.file "src" false)
    | _ => none
  children := fun p =>
    match p with
    | [] => [⟨"f", false⟩, ⟨"d", true⟩, ⟨"foo", true⟩, ⟨"cgi-bin", true⟩]
    | ["d"] => [⟨"a", false⟩]
    | _ => []

/-- A script that completes normally, writing `x` and touching nothing. -/
def script0 : ScriptBehavior :=
  { raises := false, excMsg := "", out := "x", err := "", envMut := [] }

/-- A script that raises. -/
def scriptRaises : ScriptBehavior :=
  { raises := true, excMsg := "boom", out := "", err := "", envMut := [] }

/-- A base world over `fs0`: pristine state, benign script, hung process. -/
def w0 : World := { fs := fs0, sys := sys0, script := script0, proc := .hangs }

/-- `w0` with a terminating gateway process. -/
def wProc (out : String) : World := { w0 with proc := .terminates out "" 0 }

end Tilde

-- sanity checks (kernel-reducible on concrete data)
example : Tilde.normpath "../x" = "../x" := by decide
example : Tilde.normpath "a/b/../../../c" = "../c" := by decide
example : Tilde.normpath "" = "." := by decide
example : Tilde.normpath "a/./b//c" = "a/b/c" := by decide
example : Tilde.unquote "%66oo%2Fbar" = "foo/bar" := by decide
example : Tilde.unquote "%zz" = "%zz" := by decide
example : Tilde.pySplitChar ' ' "a  b c" = ["a", "", "b", "c"] := by decide
example : Tilde.pySplitSpace2 "a b c d" = ["a", "b", "c d"] := by decide
example : Tilde.pySplitSpace2 "a b" = ["a", "b"] := by decide
example : Tilde.pyStripChars ['/'] "/foo/bar//" = "foo/bar" := by decide
example : Tilde.pyStrip "  hi\r\n" = "hi" := by decide
example : Tilde.pyInt "404" = some 404 := by decide
example : Tilde.pyInt " -7 " = some (-7) := by decide
example : Tilde.pyInt "Status:" = none := by decide
example : Tilde.pySplitlines (Tilde.chars "a\r\nb\n\nc") = ["a", "b", "", "c"] := by decide
example : Tilde.findSub "\r\n\r\n" (Tilde.chars "ab\r\n\r\ncd") = some 2 := by decide
example : Tilde.pySuffix "script.py" = ".py" := by decide
example : Tilde.pySuffix ".py" = "" := by decide
example : Tilde.pySuffix "a." = "" := by decide
example : Tilde.pySuffix "noext" = "" := by decide
example : Tilde.pySplitFirst ' ' "404 Not Found" = ["404", "Not Found"] := by decide
example : Tilde.pySplitlines (Tilde.chars "Status: 404 Not Found\r\nContent-Type: text/plain")
    = ["Status: 404 Not Found", "Content-Type: text/plain"] := by decide
example :
    Tilde.translateOutput "Status: 404 Not Found\r\nContent-Type: text/plain\r\n\r\nGone"
      = (4, "text/plain", "Gone") := by decide
example : Tilde.translateOutput "Content-Type: text/gemini\n\nhello" = (2, "text/gemini", "hello") := by
  decide
example : Tilde.translateOutput "no separator here" = (2, "text/plain", "no separator here") := by
  decide
example : Tilde.translateOutput "Status: 200 OK\n\nbody" = (2, "text/plain", "body") := by decide
example : Tilde.resolveStatus (some "oops") = 2 := by decide
example : Tilde.segsOf "." = [] := by decide
example : Tilde.segsOf "a/b" = ["a", "b"] := by decide

section HandlerSanity
open Tilde

example : (Spartan.handle cfg0 w0 "h /../x 0\r\n").1 = [.status 4 "Not Found"] := by decide

example : (Spartan.handle cfg0 w0 "h /f xyz").1 =
    [.fsStat ["f"], .fsOpen ["f"], .status 2 "application/octet-stream", .body "hi"] := by decide

example : (Spartan.handle cfg0 w0 "onlyonefield").1 = [.status 4 "Malformed request"] := by decide

example : (Spartan.handle cfg0 w0 "h / 0").1 =
    [.fsStat [], .fsStat ["index.gmi"], .fsList [], .status 2 "text/gemini",
     .body "=>cgi-bin/\n", .body "=>d/\n", .body "=>foo/\n", .body "=>f\n"] := by decide

example : (Spartan.handle cfg0 w0 "h /%66oo 0").1 =
    [.fsStat ["foo"], .status 3 "/foo/"] := by decide

example :
    (Spartan.handle cfgCgi
      (wProc "Status: 404 Not Found\r\nContent-Type: text/plain\r\n\r\nGone")
      "h /cgi-bin/s 0").1 =
    [.fsStat ["cgi-bin", "s"], .spawn ["cgi-bin", "s"], .status 4 "text/plain", .body "Gone"] := by
  decide

example : (CgiPy.handle cfg0 w0 "h /%66oo 0").trace = [.fsStat ["foo"], .status 3 "/%66oo/"] := by
  decide

example : (CgiPy.handle cfg0 w0 "h / 0").trace =
    [.fsStat [], .fsStat ["index.gmi"], .fsList [], .status 2 "text/gemini", .body "=>..\n",
     .body "=>f\n", .body "=>d/\n", .body "=>foo/\n", .body "=>cgi-bin/\n"] := by decide

example : CgiPy.handle cfgCgi w0 "h /cgi-bin/s 0" =
    .blocked [.fsStat ["cgi-bin", "s"], .fsChmod ["cgi-bin", "s"] 493, .spawn ["cgi-bin", "s"]] := by
  decide

example :
    CgiPy.run_cgi fs0 [] (.terminates "2 text/gemini\nhello" "" 0) ["cgi-bin", "s"] "" =
    .done [.fsChmod ["cgi-bin", "s"] 493, .spawn ["cgi-bin", "s"],
           .status 2 "text/gemini", .body "hello"] := by decide

example :
    CgiPy.run_cgi fs0 []
      (.terminates "Status: 404 Not Found\r\nContent-Type: text/plain\r\n\r\nGone" "" 0)
      ["cgi-bin", "s"] "" =
    .done [.fsChmod ["cgi-bin", "s"] 493, .spawn ["cgi-bin", "s"],
           .status 5 "CGI script produced invalid status line format"] := by decide

end HandlerSanity

namespace Tilde

/-! ## Association-list environment lemmas -/

theorem envGet_envSet_self (e : List (String × String)) (k v : String) :
    envGet (envSet e k v) k = some v := by
  induction e with
  | nil => simp [envSet, envGet]
  | cons kv rest ih =>
    by_cases h : kv.1 = k
    · simp [envSet, envGet, h]
    · simp [envSet, envGet, h, ih]

theorem envGet_envSet_other (e : List (String × String)) (k v k' : String)
    (h : k' ≠ k) : envGet (envSet e k v) k' = envGet e k' := by
  have h' : k ≠ k' := Ne.symm h
  induction e with
  | nil => simp [envSet, envGet, h']
  | cons kv rest ih =>
    by_cases hk : kv.1 = k
    · subst hk
      simp [envSet, envGet, h']
    · simp only [envSet, if_neg hk]
      by_cases hk' : kv.1 = k'
      · simp [envGet, hk']
      · simp [envGet, hk', ih]

theorem envUpdate_cons (e : List (String × String)) (k v : String)
    (u : List (String × String)) :
    envUpdate e ((k, v) :: u) = envUpdate (envSet e k v) u := rfl

/-- A key not bound by the update keeps its old value. -/
theorem envGet_envUpdate_not_bound (u : List (String × String))
    (e : List (String × String)) (k : String)
    (h : ∀ kv ∈ u, kv.1 ≠ k) : envGet (envUpdate e u) k = envGet e k := by
  induction u generalizing e with
  | nil => rfl
  | cons kv u ih =>
    rw [show envUpdate e (kv :: u) = envUpdate (envSet e kv.1 kv.2) u from rfl]
    rw [ih _ fun x hx => h x (List.mem_cons_of_mem _ hx)]
    exact envGet_envSet_other _ _ _ _ fun hkk => h kv (List.mem_cons_self _ _) hkk.symm

/-- A key bound by the update, and not re-bound later in it, gets the bound
value. -/
theorem envGet_envUpdate_bound (u₁ u₂ : List (String × String))
    (e : List (String × String)) (k v : String)
    (h : ∀ kv ∈ u₂, kv.1 ≠ k) :
    envGet (envUpdate e (u₁ ++ (k, v) :: u₂)) k = some v := by
  induction u₁ generalizing e with
  | nil =>
    rw [List.nil_append, envUpdate_cons, envGet_envUpdate_not_bound _ _ _ h]
    exact envGet_envSet_self _ _ _
  | cons kv u₁ ih =>
    rw [List.cons_append, show envUpdate e ((kv :: (u₁ ++ (k, v) :: u₂))) =
      envUpdate (envSet e kv.1 kv.2) (u₁ ++ (k, v) :: u₂) from rfl]
    exact ih _

theorem envKeys_envSet (e : List (String × String)) (k v : String) :
    envKeys (envSet e k v) = if k ∈ envKeys e then envKeys e else envKeys e ++ [k] := by
  induction e with
  | nil => simp [envSet, envKeys]
  | cons kv rest ih =>
    by_cases h : kv.1 = k
    · subst h
      simp [envSet, envKeys]
    · have h' : ¬ k = kv.1 := fun hkk => h hkk.symm
      simp only [envSet, if_neg h, envKeys, List.map_cons]
      rw [show List.map Prod.fst (envSet rest k v) = envKeys (envSet rest k v) from rfl, ih]
      by_cases hm : k ∈ envKeys rest
      · have hm' : k ∈ List.map Prod.fst rest := hm
        rw [if_pos hm, if_pos (List.mem_cons_of_mem _ hm')]
        rfl
      · have hm' : k ∉ List.map Prod.fst rest := hm
        have hnm : k ∉ kv.1 :: List.map Prod.fst rest := by
          simp [List.mem_cons, h', hm']
        rw [if_neg hm, if_neg hnm]
        rfl

theorem nodup_envKeys_envSet (e : List (String × String)) (k v : String)
    (h : (envKeys e).Nodup) : (envKeys (envSet e k v)).Nodup := by
  rw [envKeys_envSet]
  by_cases hm : k ∈ envKeys e
  · simpa [hm] using h
  · simp only [if_neg hm]
    simpa [List.nodup_append] using ⟨h, hm⟩

theorem nodup_envKeys_envUpdate (u e : List (String × String))
    (h : (envKeys e).Nodup) : (envKeys (envUpdate e u)).Nodup := by
  induction u generalizing e with
  | nil => exact h
  | cons kv u ih => exact ih _ (nodup_envKeys_envSet _ _ _ h)

/-- Updating with a duplicate-key-free association list preserves every
binding that list holds. -/
theorem envGet_envUpdate_of_envGet (u : List (String × String))
    (e : List (String × String)) (k v : String)
    (hnd : (envKeys u).Nodup) (h : envGet u k = some v) :
    envGet (envUpdate e u) k = some v := by
  induction u generalizing e with
  | nil => simp [envGet] at h
  | cons kv u ih =>
    rw [show envUpdate e (kv :: u) = envUpdate (envSet e kv.1 kv.2) u from rfl]
    by_cases hk : kv.1 = k
    · have hv : v = kv.2 := by
        rw [envGet, if_pos hk] at h
        exact (Option.some_inj.mp h).symm
      subst hv
      subst hk
      rw [envGet_envUpdate_not_bound]
      · exact envGet_envSet_self _ _ _
      · intro x hx hxk
        simp only [envKeys, List.map_cons, List.nodup_cons] at hnd
        exact hnd.1 (hxk ▸ List.mem_map_of_mem Prod.fst hx)
    · rw [envGet, if_neg hk] at h
      exact ih _ (by simpa [envKeys] using hnd.of_cons) h

/-! ## C10 -/

/-- C10: in the cgi.py variant, every gateway invocation on an existing
target first sets the file's permission bits to `0o755` (= 493) via
`os.chmod`, and only then spawns it — so handling a retrieval request with
gateway execution enabled mutates the served filesystem. -/
theorem c10_chmod_before_spawn (fs : FS) (environ : List (String × String))
    (proc : ProcBehavior) (segs : List String) (qs content : String) (x : Bool)
    (hfile : fs.lookup segs = some (.file content x)) :
    ((CgiPy.run_cgi fs environ proc segs qs).trace).take 2
      = [.fsChmod segs 493, .spawn segs] := by
  unfold CgiPy.run_cgi
  rw [hfile]
  cases proc with
  | hangs => rfl
  | terminates out err ec =>
    by_cases hec : ec ≠ 0
    · simp only [if_pos hec]
      rfl
    · simp only [if_neg hec]
      split
      · rfl
      · split <;> first | rfl | (split <;> rfl)

/-- C10 witness: the theorem applied at `fs0`'s executable `cgi-bin/s`. -/
theorem c10_witness :
    ((CgiPy.run_cgi fs0 [] .hangs ["cgi-bin", "s"] "").trace).take 2
      = [.fsChmod ["cgi-bin", "s"] 493, .spawn ["cgi-bin", "s"]] :=
  c10_chmod_before_spawn fs0 [] .hangs ["cgi-bin", "s"] "" "bin" true rfl

/-! ## C4 -/

/-- C4 counterexample: in the cgi.py variant a gateway process that never
terminates blocks the handler forever — `subprocess.run` is called with no
timeout — so no status line at all (in particular no server-error status)
is written for that request. -/
theorem c4_counterexample :
    CgiPy.run_cgi fs0 [] .hangs ["cgi-bin", "s"] "" =
      .blocked [.fsChmod ["cgi-bin", "s"] 493, .spawn ["cgi-bin", "s"]]
    ∧ (CgiPy.run_cgi fs0 [] .hangs ["cgi-bin", "s"] "").trace.all
        (fun e => !isStatusEv e) = true := by
  exact ⟨by decide, by decide⟩

/-- C4 amended: in spartan_cgi_server.py, gateway execution of an external
process is bounded by the 10-second `communicate` timeout — a process that
never terminates yields a server-error (code 5) status and the handler
returns (so the connection is closed cleanly); in the cgi.py variant no
timeout is passed and the handler blocks forever with no status written. -/
theorem c4_timeout_amended (cfg : Config) (segs : List String) :
    Spartan.run_cgi_exec cfg .hangs segs =
      [.spawn segs, .status 5 ("CGI Error: " ++ Spartan.timeoutMsg cfg segs)]
    ∧ ∀ (fs : FS) (environ : List (String × String)) (qs content : String) (x : Bool),
        fs.lookup segs = some (.file content x) →
        CgiPy.run_cgi fs environ .hangs segs qs =
          .blocked [.fsChmod segs 493, .spawn segs] := by
  refine ⟨rfl, ?_⟩
  intro fs environ qs content x hfile
  unfold CgiPy.run_cgi
  rw [hfile]

/-- C4 witness: the amended theorem applied at a concrete configuration,
filesystem and target. -/
theorem c4_witness :
    Spartan.run_cgi_exec cfg0 .hangs ["cgi-bin", "s"] =
      [.spawn ["cgi-bin", "s"],
       .status 5 ("CGI Error: " ++ Spartan.timeoutMsg cfg0 ["cgi-bin", "s"])]
    ∧ CgiPy.run_cgi fs0 [] .hangs ["cgi-bin", "s"] "" =
        .blocked [.fsChmod ["cgi-bin", "s"] 493, .spawn ["cgi-bin", "s"]] :=
  ⟨(c4_timeout_amended cfg0 ["cgi-bin", "s"]).1,
   (c4_timeout_amended cfg0 ["cgi-bin", "s"]).2 fs0 [] "" "bin" true rfl⟩

/-! ## C9 -/

/-- C9 counterexample: the spartan variant's gateway environment binds no
`QUERY_STRING` at all, and the cgi.py variant's binds no
`GATEWAY_INTERFACE` (over an empty inherited environment) — so neither
variant's environment contains all the variables the claim lists. -/
theorem c9_counterexample :
    envGet (Spartan.buildEnv cfg0 [] ["cgi-bin", "s"]) "QUERY_STRING" = none
    ∧ envGet (CgiPy.buildEnv [] "a=1") "GATEWAY_INTERFACE" = none := by
  exact ⟨by decide, by decide⟩

/-- C9 amended: the spartan variant's gateway environment (built
identically by both execution modes) binds `GATEWAY_INTERFACE`,
`SCRIPT_FILENAME`, `SCRIPT_NAME`, `REQUEST_METHOD="GET"`,
`SERVER_PROTOCOL`, `REMOTE_ADDR`, `SERVER_NAME` and
`SERVER_PORT`, but never `QUERY_STRING` (only an inherited binding can be
present); the cgi.py variant sets only `QUERY_STRING` (the undecoded query
substring) and `REQUEST_METHOD` on top of the inherited environment. -/
theorem c9_gateway_env (cfg : Config) (base : List (String × String))
    (segs : List String) (qs : String) :
    (envGet (Spartan.buildEnv cfg base segs) "GATEWAY_INTERFACE" = some "CGI/1.1"
     ∧ envGet (Spartan.buildEnv cfg base segs) "SCRIPT_FILENAME" = some (pathStr cfg segs)
     ∧ envGet (Spartan.buildEnv cfg base segs) "SCRIPT_NAME" = some (nameOf cfg segs)
     ∧ envGet (Spartan.buildEnv cfg base segs) "REQUEST_METHOD" = some "GET"
     ∧ envGet (Spartan.buildEnv cfg base segs) "SERVER_PROTOCOL" = some "SPARTAN"
     ∧ envGet (Spartan.buildEnv cfg base segs) "REMOTE_ADDR" = some cfg.clientAddr
     ∧ envGet (Spartan.buildEnv cfg base segs) "SERVER_NAME" = some cfg.serverName
     ∧ envGet (Spartan.buildEnv cfg base segs) "SERVER_PORT" = some (toString cfg.serverPort)
     ∧ envGet (Spartan.buildEnv cfg base segs) "QUERY_STRING" = envGet base "QUERY_STRING")
    ∧ (envGet (CgiPy.buildEnv base qs) "QUERY_STRING" = some qs
       ∧ envGet (CgiPy.buildEnv base qs) "REQUEST_METHOD" = some "GET"
       ∧ envGet (CgiPy.buildEnv base qs) "GATEWAY_INTERFACE"
           = envGet base "GATEWAY_INTERFACE") := by
  constructor
  · refine ⟨?_, ?_, ?_, ?_, ?_, ?_, ?_, ?_, ?_⟩
    · exact envGet_envUpdate_bound []
        [("SCRIPT_FILENAME", pathStr cfg segs), ("SCRIPT_NAME", nameOf cfg segs),
         ("REQUEST_METHOD", "GET"), ("SERVER_SOFTWARE", "spartan_server.py"),
         ("SERVER_PROTOCOL", "SPARTAN"), ("REMOTE_ADDR", cfg.clientAddr),
         ("SERVER_NAME", cfg.serverName), ("SERVER_PORT", toString cfg.serverPort)]
        base _ _ (by intro kv hkv; fin_cases hkv <;> simp)
    · exact envGet_envUpdate_bound [("GATEWAY_INTERFACE", "CGI/1.1")]
        [("SCRIPT_NAME", nameOf cfg segs),
         ("REQUEST_METHOD", "GET"), ("SERVER_SOFTWARE", "spartan_server.py"),
         ("SERVER_PROTOCOL", "SPARTAN"), ("REMOTE_ADDR", cfg.clientAddr),
         ("SERVER_NAME", cfg.serverName), ("SERVER_PORT", toString cfg.serverPort)]
        base _ _ (by intro kv hkv; fin_cases hkv <;> simp)
    · exact envGet_envUpdate_bound
        [("GATEWAY_INTERFACE", "CGI/1.1"), ("SCRIPT_FILENAME", pathStr cfg segs)]
        [("REQUEST_METHOD", "GET"), ("SERVER_SOFTWARE", "spartan_server.py"),
         ("SERVER_PROTOCOL", "SPARTAN"), ("REMOTE_ADDR", cfg.clientAddr),
         ("SERVER_NAME", cfg.serverName), ("SERVER_PORT", toString cfg.serverPort)]
        base _ _ (by intro kv hkv; fin_cases hkv <;> simp)
    · exact envGet_envUpdate_bound
        [("GATEWAY_INTERFACE", "CGI/1.1"), ("SCRIPT_FILENAME", pathStr cfg segs),
         ("SCRIPT_NAME", nameOf cfg segs)]
        [("SERVER_SOFTWARE", "spartan_server.py"),
         ("SERVER_PROTOCOL", "SPARTAN"), ("REMOTE_ADDR", cfg.clientAddr),
         ("SERVER_NAME", cfg.serverName), ("SERVER_PORT", toString cfg.serverPort)]
        base _ _ (by intro kv hkv; fin_cases hkv <;> simp)
    · exact envGet_envUpdate_bound
        [("GATEWAY_INTERFACE", "CGI/1.1"), ("SCRIPT_FILENAME", pathStr cfg segs),
         ("SCRIPT_NAME", nameOf cfg segs), ("REQUEST_METHOD", "GET"),
         ("SERVER_SOFTWARE", "spartan_server.py")]
        [("REMOTE_ADDR", cfg.clientAddr),
         ("SERVER_NAME", cfg.serverName), ("SERVER_PORT", toString cfg.serverPort)]
        base _ _ (by intro kv hkv; fin_cases hkv <;> simp)
    · exact envGet_envUpdate_bound
        [("GATEWAY_INTERFACE", "CGI/1.1"), ("SCRIPT_FILENAME", pathStr cfg segs),
         ("SCRIPT_NAME", nameOf cfg segs), ("REQUEST_METHOD", "GET"),
         ("SERVER_SOFTWARE", "spartan_server.py"), ("SERVER_PROTOCOL", "SPARTAN")]
        [("SERVER_NAME", cfg.serverName), ("SERVER_PORT", toString cfg.serverPort)]
        base _ _ (by intro kv hkv; fin_cases hkv <;> simp)
    · exact envGet_envUpdate_bound
        [("GATEWAY_INTERFACE", "CGI/1.1"), ("SCRIPT_FILENAME", pathStr cfg segs),
         ("SCRIPT_NAME", nameOf cfg segs), ("REQUEST_METHOD", "GET"),
         ("SERVER_SOFTWARE", "spartan_server.py"), ("SERVER_PROTOCOL", "SPARTAN"),
         ("REMOTE_ADDR", cfg.clientAddr)]
        [("SERVER_PORT", toString cfg.serverPort)]
        base _ _ (by intro kv hkv; fin_cases hkv; simp)
    · exact envGet_envUpdate_bound
        [("GATEWAY_INTERFACE", "CGI/1.1"), ("SCRIPT_FILENAME", pathStr cfg segs),
         ("SCRIPT_NAME", nameOf cfg segs), ("REQUEST_METHOD", "GET"),
         ("SERVER_SOFTWARE", "spartan_server.py"), ("SERVER_PROTOCOL", "SPARTAN"),
         ("REMOTE_ADDR", cfg.clientAddr), ("SERVER_NAME", cfg.serverName)]
        [] base _ _ (by intro kv hkv; cases hkv)
    · exact envGet_envUpdate_not_bound _ base _
        (by intro kv hkv; fin_cases hkv <;> simp)
  · refine ⟨?_, ?_, ?_⟩
    · rw [CgiPy.buildEnv, envGet_envSet_other _ _ _ _ (by decide)]
      exact envGet_envSet_self _ _ _
    · exact envGet_envSet_self _ _ _
    · rw [CgiPy.buildEnv, envGet_envSet_other _ _ _ _ (by decide),
        envGet_envSet_other _ _ _ _ (by decide)]

/-! ## C6 -/

/-- C6 counterexample: a gateway invocation whose script completes normally
and mutates nothing still leaves the nine server CGI variables in the
process-wide `os.environ` (the `os.environ.update(env)` of line 127 is
never undone), so the environment observed by later requests differs from
the original. -/
theorem c6_counterexample :
    (Spartan.run_cgi_python cfg0 fs0 sys0 script0 ["cgi-bin", "s.py"]).2.environ ≠ sys0.environ
    ∧ envGet (Spartan.run_cgi_python cfg0 fs0 sys0 script0 ["cgi-bin", "s.py"]).2.environ
        "GATEWAY_INTERFACE" = some "CGI/1.1" := by
  exact ⟨by decide, by decide⟩

/-- C6 amended: after an in-process gateway invocation the three standard
streams are restored to the originals only when the script completes
normally — a raising script leaves them pointing at the capture buffers —
and the environment variables set for the invocation persist in the
process-wide environment on every path (stated here for a script that
itself mutates nothing). -/
theorem c6_state_amended (cfg : Config) (fs : FS) (sys : SysState)
    (script : ScriptBehavior) (segs : List String) (content : String) (x : Bool)
    (hfile : fs.lookup segs = some (.file content x))
    (hnd : (envKeys sys.environ).Nodup) (hmut : script.envMut = []) :
    (script.raises = false →
        ((Spartan.run_cgi_python cfg fs sys script segs).2.stdout = sys.stdout
         ∧ (Spartan.run_cgi_python cfg fs sys script segs).2.stderr = sys.stderr
         ∧ (Spartan.run_cgi_python cfg fs sys script segs).2.stdin = sys.stdin))
    ∧ (script.raises = true →
        ((Spartan.run_cgi_python cfg fs sys script segs).2.stdout = .captured 0
         ∧ (Spartan.run_cgi_python cfg fs sys script segs).2.stderr = .captured 1
         ∧ (Spartan.run_cgi_python cfg fs sys script segs).2.stdin = .captured 2))
    ∧ envGet (Spartan.run_cgi_python cfg fs sys script segs).2.environ "GATEWAY_INTERFACE"
        = some "CGI/1.1" := by
  have henv : envGet (Spartan.buildEnv cfg sys.environ segs) "GATEWAY_INTERFACE"
      = some "CGI/1.1" := by
    exact envGet_envUpdate_bound []
      [("SCRIPT_FILENAME", pathStr cfg segs), ("SCRIPT_NAME", nameOf cfg segs),
       ("REQUEST_METHOD", "GET"), ("SERVER_SOFTWARE", "spartan_server.py"),
       ("SERVER_PROTOCOL", "SPARTAN"), ("REMOTE_ADDR", cfg.clientAddr),
       ("SERVER_NAME", cfg.serverName), ("SERVER_PORT", toString cfg.serverPort)]
      sys.environ _ _ (by intro kv hkv; fin_cases hkv <;> simp)
  have hnd' : (envKeys (Spartan.buildEnv cfg sys.environ segs)).Nodup :=
    nodup_envKeys_envUpdate _ _ hnd
  have hpersist : envGet (envUpdate sys.environ (Spartan.buildEnv cfg sys.environ segs))
      "GATEWAY_INTERFACE" = some "CGI/1.1" :=
    envGet_envUpdate_of_envGet _ _ _ _ hnd' henv
  unfold Spartan.run_cgi_python
  rw [hfile]
  cases hr : script.raises with
  | true =>
    refine ⟨fun hc => by simp [hr] at hc, fun _ => ⟨rfl, rfl, rfl⟩, ?_⟩
    simp only [if_pos rfl, hmut]
    exact hpersist
  | false =>
    refine ⟨fun _ => ?_, fun hc => by simp [hr] at hc, ?_⟩
    · simp only [Bool.false_eq_true, if_false]
      exact ⟨trivial, trivial, trivial⟩
    · simp only [Bool.false_eq_true, if_false, hmut]
      exact hpersist

/-- C6 witness: the amended theorem applied to a raising script at a
concrete configuration. -/
theorem c6_witness :
    (scriptRaises.raises = false →
        ((Spartan.run_cgi_python cfg0 fs0 sys0 scriptRaises ["cgi-bin", "s.py"]).2.stdout
            = sys0.stdout
         ∧ (Spartan.run_cgi_python cfg0 fs0 sys0 scriptRaises ["cgi-bin", "s.py"]).2.stderr
            = sys0.stderr
         ∧ (Spartan.run_cgi_python cfg0 fs0 sys0 scriptRaises ["cgi-bin", "s.py"]).2.stdin
            = sys0.stdin))
    ∧ (scriptRaises.raises = true →
        ((Spartan.run_cgi_python cfg0 fs0 sys0 scriptRaises ["cgi-bin", "s.py"]).2.stdout
            = .captured 0
         ∧ (Spartan.run_cgi_python cfg0 fs0 sys0 scriptRaises ["cgi-bin", "s.py"]).2.stderr
            = .captured 1
         ∧ (Spartan.run_cgi_python cfg0 fs0 sys0 scriptRaises ["cgi-bin", "s.py"]).2.stdin
            = .captured 2))
    ∧ envGet (Spartan.run_cgi_python cfg0 fs0 sys0 scriptRaises ["cgi-bin", "s.py"]).2.environ
        "GATEWAY_INTERFACE" = some "CGI/1.1" :=
  c6_state_amended cfg0 fs0 sys0 scriptRaises ["cgi-bin", "s.py"] "src" false rfl
    (by decide) rfl

/-! ## C1 -/

/-- C1: for every request whose percent-decoded, lexically normalized path
escapes the server root (normalized form beginning with `..` or `/`), both
variants answer with a client-error status (code 4) and perform no
filesystem access for that path: the whole trace is the one status line. -/
theorem c1_traversal_rejected (cfg : Config) (w : World) (req h p c pp qq : String)
    (hsplit : pySplitChar ' ' (pyStripChars ['\r', '\n'] req) = [h, p, c])
    (hp : p ≠ "")
    (hupq : CgiPy.urlPathQuery p = (pp, qq))
    (hescS : (pyStartsWith ".." (normpath (pyStripChars ['/'] (unquote p)))
        || pyStartsWith "/" (normpath (pyStripChars ['/'] (unquote p)))) = true)
    (hescC : (pyStartsWith ".." (normpath (pyStripChars ['/'] (unquote pp)))
        || pyStartsWith "/" (normpath (pyStripChars ['/'] (unquote pp)))) = true) :
    (Spartan.handle cfg w req).1 = [.status 4 "Not Found"]
    ∧ CgiPy.handle cfg w req = .done [.status 4 "Not Found: Invalid path traversal attempt"] := by
  have hparseS : Spartan.parseRequest (pyStripChars ['\r', '\n'] req) = .ok (h, p, c) := by
    unfold Spartan.parseRequest
    rw [hsplit]
    exact if_neg hp
  have hsplit2 : pySplitSpace2 (pyStripChars ['\r', '\n'] req) = [h, p, c] := by
    unfold pySplitSpace2
    rw [hsplit]
    rfl
  have hparseC : CgiPy.parseRequest (pyStripChars ['\r', '\n'] req) = .ok (h, p, c) := by
    unfold CgiPy.parseRequest
    rw [hsplit2]
    exact if_neg hp
  constructor
  · unfold Spartan.handle Spartan._handle
    simp [Spartan.dispatch, hparseS, hescS]
  · unfold CgiPy.handle CgiPy._handle
    simp [CgiPy.dispatch, hparseC, hupq, hescC]

/-- C1 witness: the traversal request `../x`, rejected by both variants. -/
theorem c1_witness :
    (Spartan.handle cfg0 w0 "h /../x 0").1 = [.status 4 "Not Found"]
    ∧ CgiPy.handle cfg0 w0 "h /../x 0"
        = .done [.status 4 "Not Found: Invalid path traversal attempt"] :=
  c1_traversal_rejected cfg0 w0 "h /../x 0" "h" "/../x" "0" "/../x" ""
    (by decide) (by decide) (by decide) (by decide) (by decide)

/-! ## C5 -/

/-- C5 counterexample: the content-length field `xyz` is not a non-negative
integer, yet the request parses in both variants and is served with a
success status — the content-length field is never validated. -/
theorem c5_counterexample :
    pyInt "xyz" = none
    ∧ (Spartan.handle cfg0 w0 "h /f xyz").1 =
        [.fsStat ["f"], .fsOpen ["f"], .status 2 "application/octet-stream", .body "hi"]
    ∧ (CgiPy.handle cfg0 w0 "h /f xyz").trace =
        [.fsStat ["f"], .fsOpen ["f"], .status 2 "application/octet-stream", .body "hi"] := by
  exact ⟨by decide, by decide, by decide⟩

/-- C5 amended: request parsing fails with a client error exactly when the
line does not split into exactly three space-separated fields
(spartan_cgi_server.py splits on every space; cgi.py splits with
`maxsplit=2`, gluing any further tokens into the content-length field) or
the path field is empty; the content-length field is never validated.  On
every parse failure the whole trace is the one `4` status line, so no
filesystem or gateway access occurs. -/
theorem c5_parse_amended (cfg : Config) (w : World) (req : String) :
    (∀ h p c, pySplitChar ' ' (pyStripChars ['\r', '\n'] req) = [h, p, c] →
       (Spartan.parseRequest (pyStripChars ['\r', '\n'] req) = .error "Not Found" ↔ p = "")
       ∧ (p ≠ "" → Spartan.parseRequest (pyStripChars ['\r', '\n'] req) = .ok (h, p, c)))
    ∧ ((pySplitChar ' ' (pyStripChars ['\r', '\n'] req)).length ≠ 3 →
        Spartan.parseRequest (pyStripChars ['\r', '\n'] req) = .error "Malformed request")
    ∧ (∀ msg, Spartan.parseRequest (pyStripChars ['\r', '\n'] req) = .error msg →
        (Spartan.handle cfg w req).1 = [.status 4 msg]
        ∧ touchesFs (Spartan.handle cfg w req).1 = false)
    ∧ (∀ h p c, pySplitSpace2 (pyStripChars ['\r', '\n'] req) = [h, p, c] →
        (CgiPy.parseRequest (pyStripChars ['\r', '\n'] req)
            = .error "Not Found: Empty path in request" ↔ p = "")
        ∧ (p ≠ "" → CgiPy.parseRequest (pyStripChars ['\r', '\n'] req) = .ok (h, p, c)))
    ∧ ((pySplitSpace2 (pyStripChars ['\r', '\n'] req)).length ≠ 3 →
        CgiPy.parseRequest (pyStripChars ['\r', '\n'] req)
          = .error "Bad Request: Invalid Spartan request format")
    ∧ (∀ msg, CgiPy.parseRequest (pyStripChars ['\r', '\n'] req) = .error msg →
        CgiPy.handle cfg w req = .done [.status 4 msg]
        ∧ touchesFs (CgiPy.handle cfg w req).trace = false) := by
  refine ⟨?_, ?_, ?_, ?_, ?_, ?_⟩
  · intro h p c hsplit
    unfold Spartan.parseRequest
    rw [hsplit]
    by_cases hp : p = "" <;> simp [hp]
  · intro hlen
    unfold Spartan.parseRequest
    rcases hl : pySplitChar ' ' (pyStripChars ['\r', '\n'] req)
        with _ | ⟨a, _ | ⟨b, _ | ⟨d, _ | ⟨e, t⟩⟩⟩⟩
    · rfl
    · rfl
    · rfl
    · exact absurd (by rw [hl]; rfl) hlen
    · rfl
  · intro msg herr
    unfold Spartan.handle Spartan._handle
    simp [herr, touchesFs, isFsEv, isSpawnEv]
  · intro h p c hsplit
    unfold CgiPy.parseRequest
    rw [hsplit]
    by_cases hp : p = "" <;> simp [hp]
  · intro hlen
    unfold CgiPy.parseRequest
    rcases hl : pySplitSpace2 (pyStripChars ['\r', '\n'] req)
        with _ | ⟨a, _ | ⟨b, _ | ⟨d, _ | ⟨e, t⟩⟩⟩⟩
    · rfl
    · rfl
    · rfl
    · exact absurd (by rw [hl]; rfl) hlen
    · rfl
  · intro msg herr
    unfold CgiPy.handle CgiPy._handle
    simp [herr, touchesFs, isFsEv, isSpawnEv, CgiPy.R.trace]

/-- C5 witness: the one-field request line, rejected by both variants with
no filesystem or gateway access. -/
theorem c5_witness :
    (Spartan.handle cfg0 w0 "onlyonefield").1 = [.status 4 "Malformed request"]
    ∧ touchesFs (Spartan.handle cfg0 w0 "onlyonefield").1 = false
    ∧ CgiPy.handle cfg0 w0 "onlyonefield"
        = .done [.status 4 "Bad Request: Invalid Spartan request format"]
    ∧ touchesFs (CgiPy.handle cfg0 w0 "onlyonefield").trace = false := by
  obtain ⟨-, -, hS, -, -, hC⟩ := c5_parse_amended cfg0 w0 "onlyonefield"
  have h1 := hS "Malformed request" rfl
  have h2 := hC "Bad Request: Invalid Spartan request format" rfl
  exact ⟨h1.1, h1.2, h2.1, h2.2⟩

/-! ## C8 -/

/-- C8 counterexample: the percent-encoded request path `/%66oo` resolves
to the directory `foo`; the spartan variant redirects to the **decoded**
path `/foo/`, not to the request path `/%66oo` plus `/`. -/
theorem c8_counterexample :
    (Spartan.handle cfg0 w0 "h /%66oo 0").1 = [.fsStat ["foo"], .status 3 "/foo/"]
    ∧ "/foo/" ≠ "/%66oo" ++ "/" := by
  exact ⟨by decide, by decide⟩

/-- C8 amended: for a request resolving to an existing directory whose
path does not end in `/`, the response is a redirect (code 3) regardless of
directory contents — the trace shows no listing and no `index.gmi` lookup —
whose meta is the **percent-decoded** request path plus `/` in
spartan_cgi_server.py, and the undecoded path component (query stripped)
plus `/` in cgi.py. -/
theorem c8_redirect_amended (cfg : Config) (w : World) (req h p c pp qq : String)
    (hsplit : pySplitChar ' ' (pyStripChars ['\r', '\n'] req) = [h, p, c])
    (hp : p ≠ "")
    (hupq : CgiPy.urlPathQuery p = (pp, qq))
    (hnescS : (pyStartsWith ".." (normpath (pyStripChars ['/'] (unquote p)))
        || pyStartsWith "/" (normpath (pyStripChars ['/'] (unquote p)))) = false)
    (hnescC : (pyStartsWith ".." (normpath (pyStripChars ['/'] (unquote pp)))
        || pyStartsWith "/" (normpath (pyStripChars ['/'] (unquote pp)))) = false)
    (hdirS : w.fs.lookup (segsOf (normpath (pyStripChars ['/'] (unquote p)))) = some .dir)
    (hdirC : w.fs.lookup (segsOf (normpath (pyStripChars ['/'] (unquote pp)))) = some .dir)
    (hslashS : pyEndsWith "/" (unquote p) = false)
    (hslashC : pyEndsWith "/" pp = false) :
    (Spartan.handle cfg w req).1 =
      [.fsStat (segsOf (normpath (pyStripChars ['/'] (unquote p)))),
       .status 3 (unquote p ++ "/")]
    ∧ CgiPy.handle cfg w req =
      .done [.fsStat (segsOf (normpath (pyStripChars ['/'] (unquote pp)))),
             .status 3 (pp ++ "/")] := by
  have hparseS : Spartan.parseRequest (pyStripChars ['\r', '\n'] req) = .ok (h, p, c) := by
    unfold Spartan.parseRequest
    rw [hsplit]
    exact if_neg hp
  have hsplit2 : pySplitSpace2 (pyStripChars ['\r', '\n'] req) = [h, p, c] := by
    unfold pySplitSpace2
    rw [hsplit]
    rfl
  have hparseC : CgiPy.parseRequest (pyStripChars ['\r', '\n'] req) = .ok (h, p, c) := by
    unfold CgiPy.parseRequest
    rw [hsplit2]
    exact if_neg hp
  have hnfS : isFile w.fs (segsOf (normpath (pyStripChars ['/'] (unquote p)))) = false := by
    unfold isFile
    rw [hdirS]
  have hndS : isDir w.fs (segsOf (normpath (pyStripChars ['/'] (unquote p)))) = true := by
    unfold isDir
    rw [hdirS]
  have hnfC : isFile w.fs (segsOf (normpath (pyStripChars ['/'] (unquote pp)))) = false := by
    unfold isFile
    rw [hdirC]
  have hndC : isDir w.fs (segsOf (normpath (pyStripChars ['/'] (unquote pp)))) = true := by
    unfold isDir
    rw [hdirC]
  constructor
  · unfold Spartan.handle Spartan._handle
    simp [Spartan.dispatch, hparseS, hnescS, hnfS, hndS, hslashS]
  · unfold CgiPy.handle CgiPy._handle
    simp [CgiPy.dispatch, hparseC, hupq, hnescC, hnfC, hndC, hslashC]

/-- C8 witness: the amended theorem applied to the `/%66oo` request over
`fs0`. -/
theorem c8_witness :
    (Spartan.handle cfg0 w0 "h /%66oo 0").1 = [.fsStat ["foo"], .status 3 ("/foo" ++ "/")]
    ∧ CgiPy.handle cfg0 w0 "h /%66oo 0"
        = .done [.fsStat ["foo"], .status 3 ("/%66oo" ++ "/")] := by
  have h := c8_redirect_amended cfg0 w0 "h /%66oo 0" "h" "/%66oo" "0" "/%66oo" ""
    (by decide) (by decide) (by decide) (by decide) (by decide) rfl rfl
    (by decide) (by decide)
  exact h

/-! ## C3 -/

/-- Helper for C3: the header-scan's content type stays at its incoming
value when no header line carries a `Content-Type:` prefix. -/
theorem scanHeaders_fst_of_no_ct (headers : List String) (init : String × Option String)
    (h : ∀ hd ∈ headers, pyStartsWith "content-type:" (pyLower hd) = false) :
    (headers.foldl scanStep init).1 = init.1 := by
  induction headers generalizing init with
  | nil => rfl
  | cons hd t ih =>
    rw [List.foldl_cons, ih _ fun x hx => h x (List.mem_cons_of_mem _ hx)]
    have h0 := h hd (List.mem_cons_self _ _)
    unfold scanStep
    rw [h0]
    simp only [Bool.false_eq_true, if_false]
    split <;> rfl

/-- Helper for C3: the header-scan's status line stays at its incoming
value when no header line carries a `Status:` prefix. -/
theorem scanHeaders_snd_of_no_status (headers : List String) (init : String × Option String)
    (h : ∀ hd ∈ headers, pyStartsWith "status:" (pyLower hd) = false) :
    (headers.foldl scanStep init).2 = init.2 := by
  induction headers generalizing init with
  | nil => rfl
  | cons hd t ih =>
    rw [List.foldl_cons, ih _ fun x hx => h x (List.mem_cons_of_mem _ hx)]
    have h0 := h hd (List.mem_cons_self _ _)
    unfold scanStep
    rw [h0]
    simp only [Bool.false_eq_true, if_false]
    split <;> rfl

/-- C3 counterexample: in the cgi.py variant a gateway script emitting the
claim's header-style output (`Status: 404 Not Found`, `Content-Type:
text/plain`, blank line, `Gone`) is **not** translated — the variant
requires a pre-formatted status line, so the client receives a `5`
server-error status instead of `4 text/plain` followed by `Gone`. -/
theorem c3_counterexample :
    CgiPy.run_cgi fs0 []
      (.terminates "Status: 404 Not Found\r\nContent-Type: text/plain\r\n\r\nGone" "" 0)
      ["cgi-bin", "s"] "" =
    .done [.fsChmod ["cgi-bin", "s"] 493, .spawn ["cgi-bin", "s"],
           .status 5 "CGI script produced invalid status line format"] := by
  decide

/-- C3 amended: in spartan_cgi_server.py (both gateway modes translate the
captured output identically), whenever the output contains a blank-line
header separator the written response is one status line and the body bytes
after the separator verbatim, where the meta is always the scanned content
type — `text/plain` when no `Content-Type:` header occurs — and the code is
the `Status` header's first token floor-divided by 100 when that token is
an integer, or `2` when no `Status:` header occurs; in particular the
claim's example yields `4 text/plain` then `Gone`.  The cgi.py variant
instead requires a pre-formatted status line and answers the example with a
server error. -/
theorem c3_translation_amended (cfg : Config) (segs : List String) (out err : String)
    (ec : Int) (hdrs body : List Char)
    (hsep : splitHeadersBody (chars out) = some (hdrs, body)) :
    (Spartan.run_cgi_exec cfg (.terminates out err ec) segs =
      [.spawn segs,
       .status (resolveStatus (scanHeaders (pySplitlines hdrs)).2)
         (scanHeaders (pySplitlines hdrs)).1,
       .body (ofChars body)])
    ∧ ((∀ hd ∈ pySplitlines hdrs, pyStartsWith "content-type:" (pyLower hd) = false) →
        (scanHeaders (pySplitlines hdrs)).1 = "text/plain")
    ∧ ((∀ hd ∈ pySplitlines hdrs, pyStartsWith "status:" (pyLower hd) = false) →
        resolveStatus (scanHeaders (pySplitlines hdrs)).2 = 2)
    ∧ (∀ s n, (scanHeaders (pySplitlines hdrs)).2 = some s →
        pyInt ((pySplitFirst ' ' s).getD 0 "") = some n →
        resolveStatus (scanHeaders (pySplitlines hdrs)).2 = Int.fdiv n 100)
    ∧ (∀ (fs : FS) (sys : SysState) (script : ScriptBehavior) (content : String) (x : Bool),
        fs.lookup segs = some (.file content x) → script.raises = false →
        (Spartan.run_cgi_python cfg fs sys script segs).1 =
          [.fsOpen segs,
           .status (translateOutput script.out).1 (translateOutput script.out).2.1,
           .body (translateOutput script.out).2.2])
    ∧ (Spartan.run_cgi_exec cfg
        (.terminates "Status: 404 Not Found\r\nContent-Type: text/plain\r\n\r\nGone" "" 0)
        segs = [.spawn segs, .status 4 "text/plain", .body "Gone"])
    ∧ (∀ (fs : FS) (environ : List (String × String)) (qs content : String) (x : Bool),
        fs.lookup segs = some (.file content x) →
        CgiPy.run_cgi fs environ
          (.terminates "Status: 404 Not Found\r\nContent-Type: text/plain\r\n\r\nGone" "" 0)
          segs qs =
        .done [.fsChmod segs 493, .spawn segs,
               .status 5 "CGI script produced invalid status line format"]) := by
  refine ⟨?_, ?_, ?_, ?_, ?_, ?_, ?_⟩
  · unfold Spartan.run_cgi_exec translateOutput
    simp [hsep]
  · intro h
    exact scanHeaders_fst_of_no_ct _ _ h
  · intro h
    rw [show (scanHeaders (pySplitlines hdrs)).2
        = (("text/plain", (none : Option String))).2 from scanHeaders_snd_of_no_status _ _ h]
    rfl
  · intro s n hs hn
    rw [hs]
    unfold resolveStatus
    rw [List.getD_eq_getElem?_getD] at hn
    simp [hn]
  · intro fs sys script content x hfile hraises
    unfold Spartan.run_cgi_python
    rw [hfile]
    rw [hraises]
    simp only [Bool.false_eq_true, if_false]
  · unfold Spartan.run_cgi_exec
    rfl
  · intro fs environ qs content x hfile
    unfold CgiPy.run_cgi
    rw [hfile]
    rfl

/-- C3 witness: the amended theorem applied to the claim's own example
output, over a concrete configuration and filesystem. -/
theorem c3_witness :
    Spartan.run_cgi_exec cfg0
      (.terminates "Status: 404 Not Found\r\nContent-Type: text/plain\r\n\r\nGone" "" 0)
      ["cgi-bin", "s"] = [.spawn ["cgi-bin", "s"], .status 4 "text/plain", .body "Gone"]
    ∧ CgiPy.run_cgi fs0 []
        (.terminates "Status: 404 Not Found\r\nContent-Type: text/plain\r\n\r\nGone" "" 0)
        ["cgi-bin", "s"] "" =
      .done [.fsChmod ["cgi-bin", "s"] 493, .spawn ["cgi-bin", "s"],
             .status 5 "CGI script produced invalid status line format"] := by
  have h := c3_translation_amended cfg0 ["cgi-bin", "s"]
    "Status: 404 Not Found\r\nContent-Type: text/plain\r\n\r\nGone" "" 0
    (chars "Status: 404 Not Found\r\nContent-Type: text/plain")
    (chars "Gone") (by decide)
  exact ⟨h.2.2.2.2.2.1, h.2.2.2.2.2.2 fs0 [] "" "bin" true rfl⟩

/-! ## C7 -/

/-- Helper for C7: `lexLe` is total. -/
theorem lexLe_total : ∀ a b : List Char, lexLe a b = true ∨ lexLe b a = true := by
  intro a
  induction a with
  | nil => intro b; left; rfl
  | cons x xs ih =>
    intro b
    cases b with
    | nil => right; rfl
    | cons y ys =>
      by_cases hxy : x = y
      · subst hxy
        rcases ih ys with h | h
        · left; simp [lexLe, h]
        · right; simp [lexLe, h]
      · rcases lt_trichotomy x y with h | h | h
        · left; simp [lexLe, hxy, h]
        · exact absurd h hxy
        · right
          have hyx : ¬ y = x := fun hyx => hxy hyx.symm
          simp only [lexLe, if_neg hyx, decide_eq_true_eq]
          exact h

/-- Helper for C7: `lexLe` is transitive. -/
theorem lexLe_trans : ∀ a b c : List Char,
    lexLe a b = true → lexLe b c = true → lexLe a c = true := by
  intro a
  induction a with
  | nil => intro b c _ _; rfl
  | cons x xs ih =>
    intro b c hab hbc
    cases b with
    | nil => simp [lexLe] at hab
    | cons y ys =>
      cases c with
      | nil => simp [lexLe] at hbc
      | cons z zs =>
        by_cases hxy : x = y <;> by_cases hyz : y = z
        · subst hxy
          subst hyz
          simp only [lexLe, if_pos rfl] at *
          exact ih ys zs hab hbc
        · subst hxy
          simp only [lexLe, if_pos rfl] at hab
          simp only [lexLe, if_neg hyz, decide_eq_true_eq] at hbc
          simp [lexLe, hyz, hbc]
        · subst hyz
          simp only [lexLe, if_neg hxy, decide_eq_true_eq] at hab
          simp [lexLe, hxy, hab]
        · simp only [lexLe, if_neg hxy, decide_eq_true_eq] at hab
          simp only [lexLe, if_neg hyz, decide_eq_true_eq] at hbc
          have hxz := lt_trans hab hbc
          simp [lexLe, ne_of_lt hxz, hxz]

/-- Helper for C7: the listing sort order is total. -/
theorem childLe_total (a b : DirEnt) : childLe a b = true ∨ childLe b a = true := by
  unfold childLe
  by_cases h : a.isDir = b.isDir
  · rw [if_pos h, if_pos h.symm]
    exact lexLe_total _ _
  · rw [if_neg h, if_neg fun hh => h hh.symm]
    cases ha : a.isDir
    · cases hb : b.isDir
      · exact absurd (ha.trans hb.symm) h
      · exact Or.inr rfl
    · exact Or.inl rfl

/-- Helper for C7: the listing sort order is transitive. -/
theorem childLe_trans (a b c : DirEnt) (hab : childLe a b = true)
    (hbc : childLe b c = true) : childLe a c = true := by
  unfold childLe at *
  by_cases h1 : a.isDir = b.isDir <;> by_cases h2 : b.isDir = c.isDir
  · rw [if_pos h1] at hab
    rw [if_pos h2] at hbc
    rw [if_pos (h1.trans h2)]
    exact lexLe_trans _ _ _ hab hbc
  · rw [if_pos h1] at hab
    rw [if_neg h2] at hbc
    rw [if_neg fun hac => h2 (h1.symm.trans hac)]
    exact h1.trans hbc
  · rw [if_neg h1] at hab
    rw [if_pos h2] at hbc
    rw [if_neg fun hac => h1 (hac.trans h2.symm)]
    exact hab
  · rw [if_neg h1] at hab
    rw [if_neg h2] at hbc
    exact absurd (hab.trans hbc.symm) h1

/-- Helper for C7: stable insertion is a permutation of consing. -/
theorem insertStable_perm (le : α → α → Bool) (x : α) (l : List α) :
    (insertStable le x l).Perm (x :: l) := by
  induction l with
  | nil => exact List.Perm.refl _
  | cons y ys ih =>
    unfold insertStable
    split
    · exact List.Perm.refl _
    · exact (List.Perm.cons y ih).trans (List.Perm.swap x y ys)

/-- Helper for C7: the stable sort permutes its input. -/
theorem stableSort_perm (le : α → α → Bool) (l : List α) : (stableSort le l).Perm l := by
  induction l with
  | nil => exact List.Perm.refl _
  | cons x xs ih => exact (insertStable_perm le x _).trans (List.Perm.cons x ih)

/-- Helper for C7: stable insertion into a sorted list is sorted, for a
total transitive comparator. -/
theorem insertStable_pairwise (le : α → α → Bool)
    (htot : ∀ a b, le a b = true ∨ le b a = true)
    (htrans : ∀ a b c, le a b = true → le b c = true → le a c = true)
    (x : α) (l : List α) (h : l.Pairwise fun a b => le a b = true) :
    (insertStable le x l).Pairwise fun a b => le a b = true := by
  induction l with
  | nil => exact List.pairwise_singleton _ _
  | cons y ys ih =>
    unfold insertStable
    split
    · rename_i hxy
      refine List.Pairwise.cons ?_ h
      intro z hz
      rcases List.mem_cons.mp hz with rfl | hz'
      · exact hxy
      · exact htrans x y z hxy (List.rel_of_pairwise_cons h hz')
    · rename_i hxy
      have hyx : le y x = true := (htot x y).resolve_left hxy
      refine List.Pairwise.cons ?_ (ih h.of_cons)
      intro z hz
      have hz' := (insertStable_perm le x ys).mem_iff.mp hz
      rcases List.mem_cons.mp hz' with rfl | hz''
      · exact hyx
      · exact List.rel_of_pairwise_cons h hz''

/-- Helper for C7: the stable sort is sorted, for a total transitive
comparator. -/
theorem stableSort_pairwise (le : α → α → Bool)
    (htot : ∀ a b, le a b = true ∨ le b a = true)
    (htrans : ∀ a b c, le a b = true → le b c = true → le a c = true)
    (l : List α) : (stableSort le l).Pairwise fun a b => le a b = true := by
  induction l with
  | nil => exact List.Pairwise.nil
  | cons x xs ih => exact insertStable_pairwise le htot htrans x _ ih

/-- C7 counterexample: the spartan variant's listing of the directory `d`
(one file `a`, no `index.gmi`) contains no `=>..` parent-navigation line at
all — its body lines are exactly the sorted entries. -/
theorem c7_counterexample :
    (Spartan.handle cfg0 w0 "h /d/ 0").1 =
      [.fsStat ["d"], .fsStat ["d", "index.gmi"], .fsList ["d"], .status 2 "text/gemini",
       .body "=>a\n"]
    ∧ Ev.body "=>..\n" ∉ (Spartan.handle cfg0 w0 "h /d/ 0").1 := by
  exact ⟨by decide, by decide⟩

/-- C7 amended: for a trailing-slash request resolving to an existing
directory with no `index.gmi`, the spartan variant's response body is one
`=>name`/`=>name/` line per entry in the stable sort order of the key
`(not is_dir, name.lower())` — directories before files, then
case-insensitive name — with **no** parent-navigation line, while the
cgi.py variant writes a leading `=>..` line followed by one line per entry
in raw `iterdir` order, unsorted. -/
theorem c7_listing_amended (cfg : Config) (w : World) (req h p c pp qq : String)
    (segsS segsC : List String)
    (hsplit : pySplitChar ' ' (pyStripChars ['\r', '\n'] req) = [h, p, c])
    (hp : p ≠ "")
    (hupq : CgiPy.urlPathQuery p = (pp, qq))
    (hsS : segsS = segsOf (normpath (pyStripChars ['/'] (unquote p))))
    (hsC : segsC = segsOf (normpath (pyStripChars ['/'] (unquote pp))))
    (hnescS : (pyStartsWith ".." (normpath (pyStripChars ['/'] (unquote p)))
        || pyStartsWith "/" (normpath (pyStripChars ['/'] (unquote p)))) = false)
    (hnescC : (pyStartsWith ".." (normpath (pyStripChars ['/'] (unquote pp)))
        || pyStartsWith "/" (normpath (pyStripChars ['/'] (unquote pp)))) = false)
    (hdirS : w.fs.lookup segsS = some .dir)
    (hdirC : w.fs.lookup segsC = some .dir)
    (hslashS : pyEndsWith "/" (unquote p) = true)
    (hslashC : pyEndsWith "/" pp = true)
    (hidxS : isFile w.fs (segsS ++ ["index.gmi"]) = false)
    (hidxC : isFile w.fs (segsC ++ ["index.gmi"]) = false) :
    ((Spartan.handle cfg w req).1 =
      [.fsStat segsS, .fsStat (segsS ++ ["index.gmi"]), .fsList segsS,
       .status 2 "text/gemini"]
      ++ (stableSort childLe (w.fs.children segsS)).map lineOf)
    ∧ (stableSort childLe (w.fs.children segsS)).Perm (w.fs.children segsS)
    ∧ (stableSort childLe (w.fs.children segsS)).Pairwise (fun a b => childLe a b = true)
    ∧ CgiPy.handle cfg w req =
      .done ([.fsStat segsC, .fsStat (segsC ++ ["index.gmi"]), .fsList segsC,
              .status 2 "text/gemini", .body "=>..\n"]
             ++ (w.fs.children segsC).map lineOf) := by
  subst hsS
  subst hsC
  have hparseS : Spartan.parseRequest (pyStripChars ['\r', '\n'] req) = .ok (h, p, c) := by
    unfold Spartan.parseRequest
    rw [hsplit]
    exact if_neg hp
  have hsplit2 : pySplitSpace2 (pyStripChars ['\r', '\n'] req) = [h, p, c] := by
    unfold pySplitSpace2
    rw [hsplit]
    rfl
  have hparseC : CgiPy.parseRequest (pyStripChars ['\r', '\n'] req) = .ok (h, p, c) := by
    unfold CgiPy.parseRequest
    rw [hsplit2]
    exact if_neg hp
  have hnfS : isFile w.fs (segsOf (normpath (pyStripChars ['/'] (unquote p)))) = false := by
    unfold isFile
    rw [hdirS]
  have hndS : isDir w.fs (segsOf (normpath (pyStripChars ['/'] (unquote p)))) = true := by
    unfold isDir
    rw [hdirS]
  have hnfC : isFile w.fs (segsOf (normpath (pyStripChars ['/'] (unquote pp)))) = false := by
    unfold isFile
    rw [hdirC]
  have hndC : isDir w.fs (segsOf (normpath (pyStripChars ['/'] (unquote pp)))) = true := by
    unfold isDir
    rw [hdirC]
  refine ⟨?_, stableSort_perm _ _, stableSort_pairwise _ childLe_total childLe_trans _, ?_⟩
  · unfold Spartan.handle Spartan._handle
    simp [Spartan.dispatch, hparseS, hnescS, hnfS, hndS, hslashS, hidxS]
  · unfold CgiPy.handle CgiPy._handle
    simp [CgiPy.dispatch, hparseC, hupq, hnescC, hnfC, hndC, hslashC, hidxC]

/-- C7 witness: the amended theorem applied to the `/d/` request over
`fs0`. -/
theorem c7_witness :
    ((Spartan.handle cfg0 w0 "h /d/ 0").1 =
      [.fsStat ["d"], .fsStat (["d"] ++ ["index.gmi"]), .fsList ["d"],
       .status 2 "text/gemini"]
      ++ (stableSort childLe (fs0.children ["d"])).map lineOf)
    ∧ (stableSort childLe (fs0.children ["d"])).Perm (fs0.children ["d"])
    ∧ (stableSort childLe (fs0.children ["d"])).Pairwise (fun a b => childLe a b = true)
    ∧ CgiPy.handle cfg0 w0 "h /d/ 0" =
      .done ([.fsStat ["d"], .fsStat (["d"] ++ ["index.gmi"]), .fsList ["d"],
              .status 2 "text/gemini", .body "=>..\n"]
             ++ (fs0.children ["d"]).map lineOf) :=
  c7_listing_amended cfg0 w0 "h /d/ 0" "h" "/d/" "0" "/d/" "" ["d"] ["d"]
    (by decide) (by decide) (by decide) (by decide) (by decide) (by decide) (by decide)
    rfl rfl (by decide) (by decide) (by decide) (by decide)

/-! ## C2 -/

/-- Helper for C2: listing lines are all body writes, so they keep the
framing scan in the one-status-seen state. -/
theorem chkFrame_map_lineOf (l : List DirEnt) : chkFrame (l.map lineOf) 1 = true := by
  induction l with
  | nil => rfl
  | cons c cs ih => simpa [lineOf, chkFrame] using ih

/-- Helper for C2: `write_file` writes exactly one status line, first, when
its target exists (the only way `_handle` calls it). -/
theorem chkFrame_write_file (cfg : Config) (fs : FS) (segs : List String)
    (h : isFile fs segs = true) : chkFrame (write_file cfg fs segs) 0 = true := by
  unfold isFile at h
  rcases hl : fs.lookup segs with _ | e
  · rw [hl] at h
    simp at h
  · cases e with
    | file content x => simp [write_file, hl, chkFrame]
    | dir =>
      rw [hl] at h
      simp at h

/-- Helper for C2: every path of `run_cgi_python` writes exactly one status
line, first. -/
theorem chkFrame_run_cgi_python (cfg : Config) (fs : FS) (sys : SysState)
    (script : ScriptBehavior) (segs : List String) :
    chkFrame (Spartan.run_cgi_python cfg fs sys script segs).1 0 = true := by
  unfold Spartan.run_cgi_python
  split
  · split
    · simp [chkFrame]
    · simp [chkFrame]
  · simp [chkFrame]

/-- Helper for C2: every path of `run_cgi_exec` writes exactly one status
line, first. -/
theorem chkFrame_run_cgi_exec (cfg : Config) (proc : ProcBehavior) (segs : List String) :
    chkFrame (Spartan.run_cgi_exec cfg proc segs) 0 = true := by
  unfold Spartan.run_cgi_exec
  cases proc <;> simp [chkFrame]

/-- Helper for C2: every path of the spartan `run_cgi` dispatcher writes
exactly one status line, first. -/
theorem chkFrame_run_cgi (cfg : Config) (w : World) (segs : List String) :
    chkFrame (Spartan.run_cgi cfg w segs).1 0 = true := by
  unfold Spartan.run_cgi
  split
  · exact chkFrame_run_cgi_python cfg w.fs w.sys w.script segs
  · simpa using chkFrame_run_cgi_exec cfg w.proc segs

/-- Helper for C2: every completed path of the cgi.py `run_cgi` writes
exactly one status line, first. -/
theorem chkFrame_cgipy_run_cgi (fs : FS) (environ : List (String × String))
    (proc : ProcBehavior) (segs : List String) (qs : String) :
    ∀ t, CgiPy.run_cgi fs environ proc segs qs = .done t → chkFrame t 0 = true := by
  intro t h
  simp only [CgiPy.run_cgi] at h
  rcases hl : fs.lookup segs with _ | e
  · rw [hl] at h
    simp only [CgiPy.R.done.injEq] at h
    subst h
    rfl
  · cases e with
    | dir =>
      rw [hl] at h
      simp only [CgiPy.R.done.injEq] at h
      subst h
      rfl
    | file content x =>
      rw [hl] at h
      cases proc with
      | hangs => simp at h
      | terminates out err ec =>
        by_cases hec : ec ≠ 0
        · simp only [if_pos hec, CgiPy.R.done.injEq] at h
          subst h
          rfl
        · simp only [if_neg hec] at h
          split at h
          · simp only [CgiPy.R.done.injEq] at h
            subst h
            rfl
          · split at h
            · split at h
              · simp only [CgiPy.R.done.injEq] at h
                subst h
                rfl
              · simp only [CgiPy.R.done.injEq] at h
                subst h
                rfl
            · simp only [CgiPy.R.done.injEq] at h
              subst h
              rfl

/-- Helper for C2: every path of the spartan path dispatch carries exactly
one status line: directly in the `ok` trace, or supplied by `handle`'s `4`
status after a `verr`. -/
theorem chkFrame_spartan_dispatch (cfg : Config) (w : World) (p₀ : String) :
    (∀ t sys, Spartan.dispatch cfg w p₀ = .ok t sys → chkFrame t 0 = true)
    ∧ (∀ t msg, Spartan.dispatch cfg w p₀ = .verr t msg →
        chkFrame (t ++ [.status 4 msg]) 0 = true) := by
  constructor
  · intro t sys h
    simp only [Spartan.dispatch] at h
    split at h
    · simp at h
    · split at h
      · simp only [Spartan.HRes.ok.injEq] at h
        obtain ⟨rfl, -⟩ := h
        simpa [chkFrame] using chkFrame_run_cgi cfg w _
      · split at h
        · rename_i hfile
          simp only [Spartan.HRes.ok.injEq] at h
          obtain ⟨rfl, -⟩ := h
          simpa [chkFrame] using chkFrame_write_file cfg w.fs _ hfile
        · split at h
          · split at h
            · simp only [Spartan.HRes.ok.injEq] at h
              obtain ⟨rfl, -⟩ := h
              rfl
            · split at h
              · rename_i hidx
                simp only [Spartan.HRes.ok.injEq] at h
                obtain ⟨rfl, -⟩ := h
                simpa [chkFrame] using chkFrame_write_file cfg w.fs _ hidx
              · simp only [Spartan.HRes.ok.injEq] at h
                obtain ⟨rfl, -⟩ := h
                simpa [chkFrame] using
                  chkFrame_map_lineOf (stableSort childLe (w.fs.children _))
          · simp at h
  · intro t msg h
    simp only [Spartan.dispatch] at h
    split at h
    · simp only [Spartan.HRes.verr.injEq] at h
      obtain ⟨rfl, rfl⟩ := h
      rfl
    · split at h
      · simp at h
      · split at h
        · simp at h
        · split at h
          · split at h
            · simp at h
            · split at h
              · simp at h
              · simp at h
          · simp only [Spartan.HRes.verr.injEq] at h
            obtain ⟨rfl, rfl⟩ := h
            rfl

/-- Helper for C2: every completed path of the cgi.py path dispatch writes
exactly one status line, first. -/
theorem chkFrame_cgipy_dispatch (cfg : Config) (w : World) (p₀ : String) :
    ∀ t, CgiPy.dispatch cfg w p₀ = .done t → chkFrame t 0 = true := by
  intro t h
  simp only [CgiPy.dispatch] at h
  split at h
  · simp only [CgiPy.R.done.injEq] at h
    subst h
    rfl
  · split at h
    · rcases hr : CgiPy.run_cgi w.fs w.sys.environ w.proc
          (segsOf (normpath (pyStripChars ['/'] (unquote (CgiPy.urlPathQuery p₀).1))))
          (CgiPy.urlPathQuery p₀).2 with u | u
      · rw [hr] at h
        simp only [CgiPy.R.pre, CgiPy.R.done.injEq] at h
        subst h
        simpa [chkFrame] using
          chkFrame_cgipy_run_cgi w.fs w.sys.environ w.proc _ _ u hr
      · rw [hr] at h
        simp [CgiPy.R.pre] at h
    · split at h
      · rename_i hfile
        simp only [CgiPy.R.done.injEq] at h
        subst h
        simpa [chkFrame] using chkFrame_write_file cfg w.fs _ hfile
      · split at h
        · split at h
          · simp only [CgiPy.R.done.injEq] at h
            subst h
            rfl
          · split at h
            · rename_i hidx
              simp only [CgiPy.R.done.injEq] at h
              subst h
              simpa [chkFrame] using chkFrame_write_file cfg w.fs _ hidx
            · simp only [CgiPy.R.done.injEq] at h
              subst h
              simpa [chkFrame] using chkFrame_map_lineOf (w.fs.children _)
        · simp only [CgiPy.R.done.injEq] at h
          subst h
          rfl

/-- C2: for every handled request, including every error case, exactly one
status line (`Ev.status`, the model of a `"<code> <meta>\r\n"` write) is
written on the connection, and before any body bytes — unconditionally for
the spartan variant, and for every cgi.py handling that completes (a hung
un-timed-out gateway process never completes and writes no status line —
see C4). -/
theorem c2_single_status (cfg : Config) (w : World) (req : String) :
    wellFramed (Spartan.handle cfg w req).1 = true
    ∧ ∀ t, CgiPy.handle cfg w req = .done t → wellFramed t = true := by
  constructor
  · simp only [wellFramed, Spartan.handle, Spartan._handle]
    rcases hp : Spartan.parseRequest (pyStripChars ['\r', '\n'] req)
        with msg₀ | ⟨h₀, p₀, c₀⟩
    · rfl
    · obtain ⟨hok, hverr⟩ := chkFrame_spartan_dispatch cfg w p₀
      show chkFrame ((match Spartan.dispatch cfg w p₀ with
          | .ok t sys => (t, sys)
          | .verr t msg => (t ++ [Ev.status 4 msg], w.sys)).1) 0 = true
      rcases hd : Spartan.dispatch cfg w p₀ with ⟨t, sys⟩ | ⟨t, msg⟩
      · simpa using hok t sys hd
      · simpa using hverr t msg hd
  · intro t h
    unfold CgiPy.handle at h
    simp only [CgiPy._handle] at h
    rcases hp : CgiPy.parseRequest (pyStripChars ['\r', '\n'] req)
        with msg₀ | ⟨h₀, p₀, c₀⟩
    · rw [hp] at h
      simp only [CgiPy.R.done.injEq] at h
      subst h
      rfl
    · rw [hp] at h
      exact chkFrame_cgipy_dispatch cfg w p₀ t h

/-- C2 witness: the theorem applied at two concrete requests, one per
variant (the cgi.py side at its concrete completed trace). -/
theorem c2_witness :
    wellFramed (Spartan.handle cfg0 w0 "h /f xyz").1 = true
    ∧ wellFramed [.fsStat ["foo"], .status 3 "/%66oo/"] = true :=
  ⟨(c2_single_status cfg0 w0 "h /f xyz").1,
   (c2_single_status cfg0 w0 "h /%66oo 0").2 _ (by decide)⟩

end Tilde
